import Mathlib

/-!
# Verification of the Nestfinder scoring and ranking pipeline

Shallow embedding of the apartment-recommendation core:
`backend/scoring.py`, `backend/agents/{coordinator,commute,neighborhood,budget}.py`
and the shared data model `models.py` (`SAM/src/models.py` variant, which carries
the pinned-location fields the coordinator uses).

Modelling conventions:
* Python floats are modelled by exact rationals `ℚ`; Python `int()` truncation
  toward zero is `pyInt`.
* Python `Optional` values are `Option`; Python truthiness of an optional
  number (`None` and `0` falsy) is made explicit at each use site.
* External collaborators (TravelTime API responses, the haversine trigonometry,
  the crime GeoJSON data, the listing source) are parameters of the embedded
  functions, exactly at the boundary where the source calls them.
-/

/-- Python `int()` applied to a float: truncation toward zero. -/
def pyInt (q : ℚ) : ℤ := if 0 ≤ q then ⌊q⌋ else ⌈q⌉

/-- Python `round(x)` to zero decimals: round-half-to-even (banker's rounding). -/
def pyRound (q : ℚ) : ℤ :=
  let f := ⌊q⌋
  let r := q - f
  if r < 1/2 then f
  else if 1/2 < r then f + 1
  else if f % 2 = 0 then f else f + 1

/-- Python `round(x, n)`: banker's rounding kept at `n` decimal places. -/
def pyRoundTo (n : ℕ) (q : ℚ) : ℚ := (pyRound (q * 10 ^ n) : ℚ) / 10 ^ n

/-- Python `str.capitalize()`: first character upper-cased, the rest lower-cased. -/
def pyCapitalize (s : String) : String :=
  match s.data with
  | [] => ""
  | c :: cs => String.mk (c.toUpper :: cs.map Char.toLower)

/-- `models.py` / `SAM/src/models.py` — `Apartment` dataclass (fields the
scoring core reads; coordinates are rationals since trigonometry is abstracted). -/
structure Apartment where
  id : String
  title : String
  address : String
  neighborhood : String
  price : ℤ
  bedrooms : ℤ
  bathrooms : ℚ
  sqft : Option ℤ := none
  amenities : List String := []
  pet_friendly : Bool := false
  parking_included : Bool := false
  laundry_type : String := "none"
  image_url : Option String := none
  source_url : Option String := none
  lat : Option ℚ := none
  lng : Option ℚ := none
  deriving Repr, DecidableEq

/-- `SAM/src/models.py` — `SearchRequest` dataclass. `work_address` is typed
`str` in Python but callers pass `None`; it is an `Option` here. -/
structure SearchRequest where
  budget_min : ℤ
  budget_max : ℤ
  work_address : Option String
  bedrooms : Option ℤ := some 1
  priorities : List String := ["short_commute", "low_price"]
  max_commute_minutes : ℤ := 45
  transport_mode : String := "transit"
  pinned_lat : Option ℚ := none
  pinned_lng : Option ℚ := none
  deriving Repr, DecidableEq

namespace SearchRequest

/-- `SearchRequest.has_pinned_location`. -/
def has_pinned_location (r : SearchRequest) : Bool :=
  r.pinned_lat.isSome && r.pinned_lng.isSome

end SearchRequest

/-- `models.py` — `CommuteAnalysis`. The coordinator constructs one whose every
field is `None`, so all payload fields are `Option` here. -/
structure CommuteAnalysis where
  apartment_id : String
  transit_minutes : Option ℤ := none
  driving_minutes : Option ℤ := none
  biking_minutes : Option ℤ := none
  walking_minutes : Option ℤ := none
  best_mode : Option String := some "transit"
  best_time : Option ℤ := some 0
  commute_score : Option ℤ := some 0
  summary : Option String := some ""
  deriving Repr, DecidableEq

/-- `models.py` — `NeighborhoodAnalysis`. -/
structure NeighborhoodAnalysis where
  apartment_id : String
  neighborhood_name : String
  safety_score : ℤ := 0
  safety_rating : String := "moderate"
  walkability_score : ℤ := 0
  nightlife_score : ℤ := 0
  quiet_score : ℤ := 0
  grocery_nearby : List String := []
  restaurants_nearby : ℤ := 0
  parks_nearby : ℤ := 0
  neighborhood_score : ℤ := 0
  summary : String := ""
  deriving Repr, DecidableEq

/-- `models.py` — `BudgetAnalysis`. -/
structure BudgetAnalysis where
  apartment_id : String
  monthly_rent : ℤ
  estimated_utilities : ℤ := 100
  total_monthly : ℤ := 0
  market_average : ℤ := 0
  price_difference : ℤ := 0
  price_difference_percent : ℚ := 0
  price_per_sqft : Option ℚ := none
  is_good_deal : Bool := false
  budget_score : ℤ := 0
  space_value_score : Option ℤ := none
  summary : String := ""
  deriving Repr, DecidableEq

/-- `models.py` — `Recommendation`. -/
structure Recommendation where
  rank : ℕ
  apartment : Apartment
  commute : CommuteAnalysis
  neighborhood : NeighborhoodAnalysis
  budget : BudgetAnalysis
  overall_score : ℤ
  headline : String
  match_reasons : List String := []
  concerns : List String := []
  deriving Repr, DecidableEq

/-- `models.py` — `SearchResponse`. `searched_at` is filled from
`datetime.now()` in the source; here it is an input of the pipeline. -/
structure SearchResponse where
  search_id : String
  total_found : ℕ
  recommendations : List Recommendation
  search_params : SearchRequest
  searched_at : String
  deriving Repr, DecidableEq

/-! ## `scoring.py` -/

/-- `scoring.py` — `calculate_commute_score` (linear-decay curve; present in the
shared module though the commute agent uses its own stepped curve). -/
def calculate_commute_score (minutes : ℤ) (max_acceptable : ℤ := 45) : ℤ :=
  if minutes ≤ 0 then 100
  else if max_acceptable * 2 ≤ minutes then 0
  else
    let score : ℚ := 100 - ((minutes : ℚ) / (max_acceptable * 2) * 100)
    max 0 (min 100 (pyInt score))

/-- `scoring.py` — `calculate_budget_score`. -/
def calculate_budget_score (price : ℤ) (market_average : ℤ) : ℤ :=
  if market_average ≤ 0 then 50
  else
    let difference_percent : ℚ :=
      (((market_average : ℚ) - price) / market_average) * 100
    let score : ℚ := 70 + difference_percent
    max 0 (min 100 (pyInt score))

/-- `scoring.py` — `calculate_amenity_score`. -/
def calculate_amenity_score (apartment : Apartment) (priorities : List String) : ℤ :=
  let score : ℤ := 50
  let score := if priorities.contains "pet_friendly" && apartment.pet_friendly
    then score + 20 else score
  let score := if priorities.contains "parking" && apartment.parking_included
    then score + 20 else score
  let score := if priorities.contains "laundry" then
      (if apartment.laundry_type = "in_unit" then score + 20
       else if apartment.laundry_type = "in_building" then score + 10
       else score)
    else score
  let score := if priorities.contains "gym" && apartment.amenities.contains "gym"
    then score + 15 else score
  min 100 score

/-- The axis-weight dictionary of `calculate_overall_score`. -/
structure Weights where
  commute : ℚ
  neighborhood : ℚ
  budget : ℚ
  amenities : ℚ
  deriving Repr, DecidableEq

namespace Weights

def total (w : Weights) : ℚ := w.commute + w.neighborhood + w.budget + w.amenities

end Weights

/-- `scoring.py` lines 73-88: the initial weight dictionary. -/
def initialWeights (has_commute : Bool) (commute_score : Option ℤ) : Weights :=
  if has_commute && commute_score.isSome then
    ⟨1/4, 1/4, 1/4, 1/4⟩
  else
    ⟨0, 35/100, 35/100, 30/100⟩

/-- `scoring.py` lines 90-101: one iteration of the priority-boost loop
(`i` is the enumeration index, `priority` the tag). -/
def boostStep (has_commute : Bool) (w : Weights) (i : ℕ) (priority : String) : Weights :=
  let boost : ℚ := (15/100) * (3 - (i : ℚ)) / 3
  if priority = "short_commute" && has_commute then
    { w with commute := w.commute + boost }
  else if ["safe_area", "walkable", "nightlife", "quiet_area"].contains priority then
    { w with neighborhood := w.neighborhood + boost }
  else if priority = "low_price" then
    { w with budget := w.budget + boost }
  else if ["parking", "gym", "laundry", "pet_friendly"].contains priority then
    { w with amenities := w.amenities + boost }
  else w

/-- The whole priority-boost loop: `for i, priority in enumerate(priorities[:3])`. -/
def applyBoosts (has_commute : Bool) (w : Weights) (priorities : List String) : Weights :=
  ((priorities.take 3).enum).foldl (fun acc p => boostStep has_commute acc p.1 p.2) w

/-- `scoring.py` lines 103-105: renormalize the weights when their total is positive. -/
def normalizeWeights (w : Weights) : Weights :=
  let t := w.total
  if 0 < t then ⟨w.commute / t, w.neighborhood / t, w.budget / t, w.amenities / t⟩
  else w

/-- The weight dictionary actually multiplied into the overall score. -/
def finalWeights (has_commute : Bool) (commute_score : Option ℤ)
    (priorities : List String) : Weights :=
  normalizeWeights (applyBoosts has_commute (initialWeights has_commute commute_score) priorities)

/-- `scoring.py` — `calculate_overall_score`. -/
def calculate_overall_score (commute_score : Option ℤ) (neighborhood_score : ℤ)
    (budget_score : ℤ) (amenity_score : ℤ) (priorities : List String)
    (has_commute : Bool := true) : ℤ :=
  let w := finalWeights has_commute commute_score priorities
  let safe_commute : ℤ :=
    match commute_score, has_commute with
    | some c, true => c
    | _, _ => 0
  pyInt ((safe_commute : ℚ) * w.commute + (neighborhood_score : ℚ) * w.neighborhood
    + (budget_score : ℚ) * w.budget + (amenity_score : ℚ) * w.amenities)

/-- First-match association-list lookup: Python dict `get` over the dict's
key-value pairs. -/
def lookupBy {κ α : Type} [DecidableEq κ] (key : κ) : List (κ × α) → Option α
  | [] => none
  | (k, v) :: rest => if k = key then some v else lookupBy key rest

/-! ## `agents/commute.py` — `CommuteAgent` -/

/-- The destination argument of `CommuteAgent.analyze`: a pinned `(lat, lng)`
tuple or an address string (`Union[tuple, str]`). The coordinator passes
`request.get_destination_coords() or request.work_address`; a `None`
work address is rendered as the (equally falsy) empty-string address. -/
inductive Destination where
  | coords (lat lng : ℚ)
  | addr (s : String)
  deriving Repr, DecidableEq

/-- Python truthiness of the destination value: a 2-tuple is always truthy,
a string is truthy when nonempty (`None` corresponds to `addr ""`). -/
def Destination.truthy : Destination → Bool
  | .coords _ _ => true
  | .addr s => s ≠ ""

/-- Per-mode minutes extracted from the TravelTime collaborator response
(`results[mode]["travel_time_minutes"]`, `None` when a mode is unresolved). -/
structure TravelTimes where
  transit : Option ℤ
  driving : Option ℤ
  biking : Option ℤ
  walking : Option ℤ
  deriving Repr, DecidableEq

/-- The insertion-ordered `times` dict of `CommuteAgent.analyze` restricted to
its non-`None` entries (`valid_times`). -/
def validTimes (tt dv bk wk : Option ℤ) : List (String × ℤ) :=
  ([("transit", tt), ("driving", dv), ("biking", bk), ("walking", wk)]).filterMap
    (fun p => p.2.map (fun v => (p.1, v)))

/-- Python `min(d, key=d.get)` over an insertion-ordered dict: the first entry
holding the minimal value (later entries replace only on a strictly smaller value). -/
def firstMinBy (l : List (String × ℤ)) : Option (String × ℤ) :=
  l.foldl
    (fun acc p =>
      match acc with
      | none => some p
      | some q => if p.2 < q.2 then some p else some q)
    none

/-- `CommuteAgent.analyze` lines 377-388: the stepped commute-score curve. -/
def steppedCommuteScore (best_time : ℤ) : ℤ :=
  if best_time ≤ 10 then 100
  else if best_time ≤ 20 then 90
  else if best_time ≤ 30 then 75
  else if best_time ≤ 45 then 60
  else if best_time ≤ 60 then 40
  else 20

/-- `CommuteAgent.analyze` lines 390-398: the summary string. -/
def commuteSummary (best_time : ℤ) (best_mode : String) : String :=
  if best_time ≤ 15 then
    "Excellent! Only " ++ toString best_time ++ " min by " ++ best_mode
  else if best_time ≤ 30 then
    "Great " ++ toString best_time ++ " min commute by " ++ best_mode
  else if best_time ≤ 45 then
    "Reasonable " ++ toString best_time ++ " min by " ++ best_mode
  else
    "Long commute: " ++ toString best_time ++ " min by " ++ best_mode

/-- Decimal rendering of a distance (`f"{d:.1f}"`): banker's rounding to one
decimal place; the exact decimal string formatting is abstracted to `toString`. -/
def fmtKm (q : ℚ) : String := toString (pyRoundTo 1 q)

/-- Percent rendering `f"{p:.0f}"`: banker's rounding to zero decimal places. -/
def fmtPct (q : ℚ) : String := toString (pyRound q)

/-- `CommuteAgent._fallback_analysis`, distance-estimate branch (lines
421-472): coordinates known, so per-mode minutes are derived from the
great-circle distance (`haversineKm` abstracts the trigonometry of lines
429-436; everything else is literal). -/
def fallbackDestCoords (dest : Destination) : ℚ × ℚ :=
  match dest with
  | .coords dla dln => (dla, dln)
  | .addr _ => (45.4215, -75.6972)

/-- The distance-band score of `_fallback_analysis` (lines 449-459). -/
def fallbackBandScore (distance_km : ℚ) : ℤ :=
  if distance_km ≤ 2 then 95
  else if distance_km ≤ 5 then 80
  else if distance_km ≤ 10 then 65
  else 40

def fallbackDistanceAnalysis (haversineKm : ℚ → ℚ → ℚ → ℚ → ℚ)
    (apartment_id : String) (mode : String) (la ln : ℚ) (dest : Destination) :
    CommuteAnalysis :=
  let destPair : ℚ × ℚ := fallbackDestCoords dest
  let distance_km : ℚ := haversineKm la ln destPair.1 destPair.2
  let transit_mins := pyInt (distance_km * 4 + 10)
  let driving_mins := pyInt (distance_km * 2 + 5)
  let biking_mins := pyInt (distance_km * 4)
  let walking_mins := pyInt (distance_km * 12)
  let best_time : ℤ :=
    match mode with
    | "transit" => transit_mins
    | "driving" => driving_mins
    | "biking" => biking_mins
    | "walking" => walking_mins
    | _ => transit_mins
  let commute_score : ℤ := fallbackBandScore distance_km
  let summary : String :=
    if distance_km ≤ 2 then
      "Excellent! Only " ++ fmtKm distance_km ++ "km away (~" ++ toString best_time ++ " min)"
    else if distance_km ≤ 5 then
      "Great location - " ++ fmtKm distance_km ++ "km (~" ++ toString best_time
        ++ " min by " ++ mode ++ ")"
    else if distance_km ≤ 10 then
      "Reasonable distance - " ++ fmtKm distance_km ++ "km (~" ++ toString best_time ++ " min)"
    else
      "Far - " ++ fmtKm distance_km ++ "km (~" ++ toString best_time ++ " min)"
  { apartment_id := apartment_id
    transit_minutes := some transit_mins
    driving_minutes := some driving_mins
    biking_minutes := some biking_mins
    walking_minutes := if distance_km < 5 then some walking_mins else none
    best_mode := some mode
    best_time := some best_time
    commute_score := some commute_score
    summary := some summary }

/-- `CommuteAgent._fallback_analysis`, ultimate branch (lines 474-485):
no usable coordinates. -/
def fallbackUnknownAnalysis (apartment_id : String) (mode : String) :
    CommuteAnalysis :=
  { apartment_id := apartment_id
    transit_minutes := none
    driving_minutes := none
    biking_minutes := none
    walking_minutes := none
    best_mode := some mode
    best_time := some 0
    commute_score := some 50
    summary := some "Location unknown" }

/-- `CommuteAgent._fallback_analysis`. The branch guard translates the Python
truthiness test `if apartment and apartment.lat and apartment.lng and
destination:` (a coordinate equal to `0` is falsy, as is a `None`/empty
destination). -/
def fallback_analysis (haversineKm : ℚ → ℚ → ℚ → ℚ → ℚ) (apartment_id : String)
    (mode : String) (apartment : Option Apartment := none)
    (destination : Option Destination := none) : CommuteAnalysis :=
  match apartment, destination with
  | some apt, some dest =>
    match apt.lat, apt.lng with
    | some la, some ln =>
      if la ≠ 0 ∧ ln ≠ 0 ∧ dest.truthy then
        fallbackDistanceAnalysis haversineKm apartment_id mode la ln dest
      else fallbackUnknownAnalysis apartment_id mode
    | _, _ => fallbackUnknownAnalysis apartment_id mode
  | _, _ => fallbackUnknownAnalysis apartment_id mode

/-- `CommuteAgent.analyze`. The TravelTime collaborator is the parameter
`travel` (`none` covers both a falsy `results` and an exception raised by the
service, which the `try/except` converts to the same fallback call);
`api_available` is the constructor flag. -/
def commuteAnalyze (haversineKm : ℚ → ℚ → ℚ → ℚ → ℚ) (api_available : Bool)
    (travel : Option TravelTimes) (apartment : Apartment)
    (destination : Destination) (transport_mode : String := "transit") :
    CommuteAnalysis :=
  if apartment.lat = none ∨ apartment.lng = none then
    fallback_analysis haversineKm apartment.id transport_mode (some apartment) (some destination)
  else if !api_available then
    fallback_analysis haversineKm apartment.id transport_mode (some apartment) (some destination)
  else
    match travel with
    | none =>
      fallback_analysis haversineKm apartment.id transport_mode (some apartment) (some destination)
    | some tts =>
      let vt := validTimes tts.transit tts.driving tts.biking tts.walking
      let best : String × ℤ := (firstMinBy vt).getD (transport_mode, 30)
      let best_mode := best.1
      let best_time := best.2
      { apartment_id := apartment.id
        transit_minutes := tts.transit
        driving_minutes := tts.driving
        biking_minutes := tts.biking
        walking_minutes := tts.walking
        best_mode := some best_mode
        best_time := some best_time
        commute_score := some (steppedCommuteScore best_time)
        summary := some (commuteSummary best_time best_mode) }

/-! ## `agents/neighborhood.py` — `NeighborhoodAgent` -/

/-- One row of the (mock) `neighborhood_amenities` table. -/
structure NbAmenityInfo where
  walkability_score : ℤ
  nightlife_score : ℤ
  quiet_score : ℤ
  grocery_nearby : List String
  restaurants_nearby : ℤ
  parks_nearby : ℤ
  deriving Repr, DecidableEq

/-- `NeighborhoodAgent.neighborhood_amenities` (the static table). -/
def neighborhoodAmenityTable : List (String × NbAmenityInfo) :=
  [
    ("Centretown", ⟨92, 85, 40, ["Farm Boy", "Loblaws", "Metro"], 150, 5⟩),
    ("Byward Market", ⟨95, 95, 25, ["Moulin de Provence", "Metro"], 200, 3⟩),
    ("The Glebe", ⟨85, 60, 70, ["Whole Foods", "Metro", "Farm Boy"], 80, 8⟩),
    ("Westboro", ⟨82, 55, 75, ["Superstore", "Farm Boy"], 60, 10⟩),
    ("Hintonburg", ⟨80, 70, 55, ["Parkdale Market", "Herb & Spice"], 70, 6⟩),
    ("Sandy Hill", ⟨78, 50, 60, ["Metro", "Shoppers Drug Mart"], 40, 5⟩),
    ("Little Italy", ⟨83, 75, 50, ["Nicastro's", "La Bottega"], 90, 4⟩),
    ("Vanier", ⟨65, 40, 60, ["Food Basics", "Walmart"], 30, 4⟩),
    ("Alta Vista", ⟨55, 20, 90, ["Loblaws", "Shoppers"], 20, 12⟩),
    ("Old Ottawa South", ⟨75, 35, 80, ["Metro"], 25, 7⟩),
    ("New Edinburgh", ⟨72, 30, 85, ["Metro", "Jacobsons"], 20, 8⟩)
  ]

/-- `NeighborhoodAgent.default_amenities`. -/
def defaultAmenityInfo : NbAmenityInfo := ⟨65, 50, 65, ["Local grocery"], 30, 5⟩

/-- `NeighborhoodAgent.crime_weights` with the `.get(crime_type, 1.0)` default. -/
def crimeWeight (t : String) : ℚ :=
  if t = "Homicide" then 10
  else if t = "Shootings" then 8
  else if t = "Hate_Crime" then 5
  else if t = "Criminal_Offences" then 3
  else if t = "Auto_Theft" then 2
  else if t = "Bike_Theft" then 1
  else 1

/-- The crime counts loaded from the GeoJSON files:
`{neighborhood: {crime_type: count}}`, an input of the agent. -/
abbrev CrimeData : Type := List (String × List (String × ℕ))

/-- `_calculate_safety_scores`: weighted total of one neighborhood's counts. -/
def weightedCrime (crimes : List (String × ℕ)) : ℚ :=
  crimes.foldl (fun acc p => acc + (p.2 : ℚ) * crimeWeight p.1) 0

/-- Python `max` of a nonempty collection (`0` for the unreachable empty case). -/
def maxList (l : List ℚ) : ℚ :=
  match l with
  | [] => 0
  | x :: xs => xs.foldl max x

/-- Python `min` of a nonempty collection (`0` for the unreachable empty case). -/
def minList (l : List ℚ) : ℚ :=
  match l with
  | [] => 0
  | x :: xs => xs.foldl min x

/-- `NeighborhoodAgent._calculate_safety_scores`: min-max normalize the
weighted crime totals and map (inverted) into the 40-95 band. -/
def calcSafetyScores (data : CrimeData) : List (String × ℤ) :=
  let ws : List (String × ℚ) := data.map (fun p => (p.1, weightedCrime p.2))
  match ws with
  | [] => []
  | _ =>
    let vals := ws.map Prod.snd
    let maxCrime := maxList vals
    let minCrime := minList vals
    ws.map (fun p =>
      let normalized : ℚ :=
        if maxCrime = minCrime then 1/2 else (p.2 - minCrime) / (maxCrime - minCrime)
      (p.1, pyInt (95 - normalized * 55)))

/-- `NeighborhoodAgent._get_safety_rating`. -/
def safetyRating (score : ℤ) : String :=
  if score ≥ 85 then "excellent"
  else if score ≥ 70 then "good"
  else if score ≥ 55 then "moderate"
  else "caution"

/-- `NeighborhoodAgent.analyze`, with the crime data as explicit input. -/
def neighborhoodAnalyze (data : CrimeData) (apartment : Apartment)
    (priorities : List String) : NeighborhoodAnalysis :=
  let neighborhood := apartment.neighborhood
  let safety_score := (lookupBy neighborhood (calcSafetyScores data)).getD 70
  let safety_rating := safetyRating safety_score
  let am := (lookupBy neighborhood neighborhoodAmenityTable).getD defaultAmenityInfo
  let scores : List ℤ :=
    [safety_score, am.walkability_score]
      ++ (if priorities.contains "nightlife" then [am.nightlife_score] else [])
      ++ (if priorities.contains "quiet_area" then [am.quiet_score] else [])
  let neighborhood_score := pyInt ((scores.sum : ℚ) / (scores.length : ℚ))
  let summaries : List String :=
    (if safety_score ≥ 85 then ["Very safe area"]
     else if safety_score ≥ 70 then ["Generally safe"]
     else if safety_score < 55 then ["Higher crime area"]
     else [])
      ++ (if am.walkability_score ≥ 85 then ["highly walkable"] else [])
      ++ (if priorities.contains "nightlife" && am.nightlife_score ≥ 70 then
            ["great nightlife"] else [])
      ++ (if priorities.contains "quiet_area" && am.quiet_score ≥ 75 then
            ["quiet residential area"] else [])
  let summary :=
    pyCapitalize (if summaries.isEmpty then "Typical " ++ neighborhood ++ " neighborhood"
      else String.intercalate ", " summaries)
  { apartment_id := apartment.id
    neighborhood_name := neighborhood
    safety_score := safety_score
    safety_rating := safety_rating
    walkability_score := am.walkability_score
    nightlife_score := am.nightlife_score
    quiet_score := am.quiet_score
    grocery_nearby := am.grocery_nearby
    restaurants_nearby := am.restaurants_nearby
    parks_nearby := am.parks_nearby
    neighborhood_score := neighborhood_score
    summary := summary }

/-! ## `agents/budget.py` — `BudgetAgent` -/

/-- `BudgetAgent.market_averages` and `default_average`, as the composite
lookup `market_averages.get((n, b), default_average.get(b, 1700))`. -/
def marketAverageTable : List ((String × ℤ) × ℤ) :=
  [
    (("Centretown", 1), 1800),
    (("Centretown", 2), 2400),
    (("Byward Market", 1), 2000),
    (("Byward Market", 2), 2700),
    (("The Glebe", 1), 1900),
    (("The Glebe", 2), 2500),
    (("Westboro", 1), 2000),
    (("Westboro", 2), 2600),
    (("Hintonburg", 1), 1750),
    (("Hintonburg", 2), 2300),
    (("Sandy Hill", 1), 1600),
    (("Sandy Hill", 2), 2100),
    (("Little Italy", 1), 1700),
    (("Little Italy", 2), 2200),
    (("Vanier", 1), 1450),
    (("Vanier", 2), 1850),
    (("Alta Vista", 1), 1550),
    (("Alta Vista", 2), 2000),
    (("Old Ottawa South", 1), 1800),
    (("Old Ottawa South", 2), 2400),
    (("New Edinburgh", 1), 1850),
    (("New Edinburgh", 2), 2450)
  ]

/-- `BudgetAgent`: `market_averages.get((n, b), default_average.get(b, 1700))`. -/
def marketAverage (n : String) (b : ℤ) : ℤ :=
  (lookupBy (n, b) marketAverageTable).getD
    (if b = 1 then 1700 else if b = 2 then 2200 else 1700)

/-- `BudgetAgent.analyze`. -/
def budgetAnalyze (apartment : Apartment) : BudgetAnalysis :=
  let market_average := marketAverage apartment.neighborhood apartment.bedrooms
  let price_difference := apartment.price - market_average
  let price_difference_percent : ℚ :=
    ((price_difference : ℚ) / (market_average : ℚ)) * 100
  let estimated_utilities : ℤ :=
    match apartment.sqft with
    | some s => if s ≠ 0 ∧ s < 700 then 100 else 150
    | none => 150
  let total_monthly := apartment.price + estimated_utilities
  let price_per_sqft : Option ℚ :=
    match apartment.sqft with
    | some s => if 0 < s then some (pyRoundTo 2 ((apartment.price : ℚ) / (s : ℚ))) else none
    | none => none
  let space_value_score : Option ℤ :=
    price_per_sqft.map (fun pps =>
      if pps ≤ 2 then 100
      else if pps ≤ 5/2 then 85
      else if pps ≤ 3 then 70
      else if pps ≤ 7/2 then 55
      else 40)
  let is_good_deal : Bool := price_difference_percent < -5
  let budget_score := calculate_budget_score apartment.price market_average
  let summary : String :=
    if price_difference_percent ≤ -15 then
      "Excellent deal! " ++ fmtPct |price_difference_percent| ++ "% below market"
    else if price_difference_percent ≤ -5 then
      "Good value - " ++ fmtPct |price_difference_percent| ++ "% below market"
    else if price_difference_percent ≤ 5 then "At market rate"
    else if price_difference_percent ≤ 15 then
      "Slightly above market (+" ++ fmtPct price_difference_percent ++ "%)"
    else
      "Premium pricing (+" ++ fmtPct price_difference_percent ++ "% above market)"
  { apartment_id := apartment.id
    monthly_rent := apartment.price
    estimated_utilities := estimated_utilities
    total_monthly := total_monthly
    market_average := market_average
    price_difference := price_difference
    price_difference_percent := pyRoundTo 1 price_difference_percent
    price_per_sqft := price_per_sqft
    is_good_deal := is_good_deal
    budget_score := budget_score
    space_value_score := space_value_score
    summary := summary }

/-! ## `scoring.py` — explanation generators, and the coordinator -/

/-- The `scores` dict the coordinator hands to the explanation generators
(`commute` may be `None`). -/
structure ScoresDict where
  commute : Option ℤ
  neighborhood : ℤ
  budget : ℤ
  amenities : ℤ
  deriving Repr, DecidableEq

/-- Python `max(d, key=...)` over an insertion-ordered dict: the first entry
holding the maximal value. -/
def firstMaxBy (l : List (String × ℤ)) : Option (String × ℤ) :=
  l.foldl
    (fun acc p =>
      match acc with
      | none => some p
      | some q => if q.2 < p.2 then some p else some q)
    none

/-- `scoring.py` — `generate_headline` (the source signature also receives the
`priorities` list but never reads it, so it is dropped here). -/
def generate_headline (rank : ℕ) (scores : ScoresDict) (has_commute : Bool := true) :
    String :=
  if rank = 1 then "Best Overall Match"
  else
    let filtered : List (String × ℤ) :=
      (match has_commute, scores.commute with
       | true, some c => [("commute", c)]
       | _, _ => [])
        ++ [("neighborhood", scores.neighborhood), ("budget", scores.budget),
            ("amenities", scores.amenities)]
    match firstMaxBy filtered with
    | none => "#" ++ toString rank ++ " Recommendation"
    | some (best_category, _) =>
      match best_category with
      | "commute" => "Best for Commuters"
      | "neighborhood" => "Best Neighborhood"
      | "budget" => "Best Value"
      | "amenities" => "Best Amenities"
      | _ => "#" ++ toString rank ++ " Recommendation"

/-- `scoring.py` — `generate_match_reasons`. -/
def generate_match_reasons (apartment : Apartment) (scores : ScoresDict)
    (priorities : List String) : List String :=
  let reasons : List String :=
    (match scores.commute with
     | some c =>
       if c ≥ 80 then ["Excellent commute time"]
       else if c ≥ 60 then ["Good commute time"]
       else []
     | none => [])
      ++ (if scores.budget ≥ 80 then ["Great value for money"]
          else if scores.budget ≥ 60 then ["Reasonably priced"]
          else [])
      ++ (if scores.neighborhood ≥ 80 then
            ["Great location in " ++ apartment.neighborhood] else [])
      ++ (if priorities.contains "pet_friendly" && apartment.pet_friendly then
            ["Pet-friendly"] else [])
      ++ (if priorities.contains "parking" && apartment.parking_included then
            ["Parking included"] else [])
      ++ (if apartment.laundry_type = "in_unit" then ["In-unit laundry"] else [])
  reasons.take 4

/-- `scoring.py` — `generate_concerns`. -/
def generate_concerns (apartment : Apartment) (scores : ScoresDict)
    (priorities : List String) : List String :=
  let concerns : List String :=
    (match scores.commute with
     | some c => if c < 50 then ["Longer commute"] else []
     | none => [])
      ++ (if scores.budget < 50 then ["Above market price"] else [])
      ++ (if scores.neighborhood < 50 then
            ["Neighborhood may not match preferences"] else [])
      ++ (if priorities.contains "pet_friendly" && !apartment.pet_friendly then
            ["No pets allowed"] else [])
      ++ (if priorities.contains "parking" && !apartment.parking_included then
            ["No parking included"] else [])
      ++ (if priorities.contains "laundry" && apartment.laundry_type = "none" then
            ["No laundry facilities"] else [])
  concerns.take 3

/-! ## `agents/coordinator.py` — `CoordinatorAgent.search` -/

namespace SearchRequest

/-- Coordinator line 74: `bool(request.work_address) or request.has_pinned_location()`. -/
def hasWorkLocation (r : SearchRequest) : Bool :=
  (match r.work_address with
   | some s => s ≠ ""
   | none => false)
    || r.has_pinned_location

/-- Coordinator line 115: `request.get_destination_coords() or request.work_address`. -/
def destination (r : SearchRequest) : Destination :=
  match r.pinned_lat, r.pinned_lng with
  | some la, some ln => .coords la ln
  | _, _ => .addr (r.work_address.getD "")

end SearchRequest

/-- Coordinator lines 144-154: the all-`None` `CommuteAnalysis` substituted
when no work location is given. -/
def emptyCommute (apartment_id : String) : CommuteAnalysis :=
  { apartment_id := apartment_id
    transit_minutes := none
    driving_minutes := none
    biking_minutes := none
    walking_minutes := none
    best_mode := none
    best_time := none
    commute_score := none
    summary := none }

/-- The external collaborators of one search, as the coordinator sees them:
TravelTime availability and per-apartment responses, the haversine
trigonometry, and the crime data the neighborhood agent was loaded with. -/
structure PipelineEnv where
  api_available : Bool
  travel : Apartment → Option TravelTimes
  haversineKm : ℚ → ℚ → ℚ → ℚ → ℚ
  crime : CrimeData

/-- Coordinator loop body (lines 110-190): analyze one apartment and return
the rank-0 recommendation plus its `scores` dict. -/
def analyzeOne (env : PipelineEnv) (request : SearchRequest)
    (has_work_location : Bool) (apartment : Apartment) :
    Recommendation × ScoresDict :=
  let commute : CommuteAnalysis :=
    if has_work_location then
      commuteAnalyze env.haversineKm env.api_available (env.travel apartment)
        apartment request.destination request.transport_mode
    else emptyCommute apartment.id
  let neighborhood := neighborhoodAnalyze env.crime apartment request.priorities
  let budget := budgetAnalyze apartment
  let amenity_score := calculate_amenity_score apartment request.priorities
  let overall_score := calculate_overall_score commute.commute_score
    neighborhood.neighborhood_score budget.budget_score amenity_score
    request.priorities has_work_location
  let scores : ScoresDict :=
    ⟨commute.commute_score, neighborhood.neighborhood_score, budget.budget_score,
      amenity_score⟩
  ({ rank := 0
     apartment := apartment
     commute := commute
     neighborhood := neighborhood
     budget := budget
     overall_score := overall_score
     headline := ""
     match_reasons := generate_match_reasons apartment scores request.priorities
     concerns := generate_concerns apartment scores request.priorities },
   scores)

/-- Stable insertion into a list sorted non-increasingly by `key`
(placed after all strictly greater keys, before the first `≤` key). -/
def insertDescBy {α : Type} (key : α → ℤ) (a : α) : List α → List α
  | [] => [a]
  | b :: l => if key a < key b then b :: insertDescBy key a l else a :: b :: l

/-- Python `list.sort(key=..., reverse=True)`: stable non-increasing sort. -/
def sortDescBy {α : Type} (key : α → ℤ) (l : List α) : List α :=
  l.foldr (insertDescBy key) []

/-- Coordinator lines 199-207: `for rank, (rec, scores) in enumerate(recommendations, 1)`:
set the rank and the rank-dependent headline. -/
def assignRanks (has_commute : Bool) :
    ℕ → List (Recommendation × ScoresDict) → List Recommendation
  | _, [] => []
  | n, (rec, scores) :: rest =>
    { rec with rank := n, headline := generate_headline n scores has_commute }
      :: assignRanks has_commute (n + 1) rest

/-- `CoordinatorAgent.search`. The listing agent is a collaborator: the
`apartments` argument is its (already budget/bedroom-filtered, ≤30) response;
`search_id` (a fresh UUID in the source) and `searched_at` (the clock) are the
two nondeterministic inputs, passed explicitly. -/
def coordinatorSearch (env : PipelineEnv) (search_id : String)
    (searched_at : String) (request : SearchRequest)
    (apartments : List Apartment) : SearchResponse :=
  let has_work_location := request.hasWorkLocation
  if apartments.isEmpty then
    { search_id := search_id
      total_found := 0
      recommendations := []
      search_params := request
      searched_at := searched_at }
  else
    let scored := apartments.map (analyzeOne env request has_work_location)
    let ranked := assignRanks has_work_location 1
      (sortDescBy (fun p => p.1.overall_score) scored)
    { search_id := search_id
      total_found := apartments.length
      recommendations := ranked.take 10
      search_params := request
      searched_at := searched_at }

/-! ## Helper lemmas -/

lemma pyInt_nonneg {q : ℚ} (h : 0 ≤ q) : 0 ≤ pyInt q := by
  simp only [pyInt, if_pos h]
  exact Int.floor_nonneg.mpr h

lemma pyInt_le {q : ℚ} {n : ℤ} (h : q ≤ (n : ℚ)) : pyInt q ≤ n := by
  unfold pyInt
  split
  · have := Int.floor_mono h
    simpa using this
  · exact Int.ceil_le.mpr h

lemma le_pyInt {q : ℚ} {n : ℤ} (h : (n : ℚ) ≤ q) : n ≤ pyInt q := by
  unfold pyInt
  split
  · exact Int.le_floor.mpr h
  · have := Int.ceil_mono h
    simpa using this

lemma pyInt_intCast (n : ℤ) : pyInt (n : ℚ) = n := by
  have h1 : pyInt (n : ℚ) ≤ n := pyInt_le le_rfl
  have h2 : n ≤ pyInt (n : ℚ) := le_pyInt le_rfl
  omega

/-- Truncation and integer-bounded clamping commute: Python's
`max(0, min(100, int(x)))` equals `int` of the clamped rational. -/
lemma clamp_pyInt (q : ℚ) :
    max 0 (min 100 (pyInt q)) = pyInt (max 0 (min 100 q)) := by
  rcases lt_or_le q 0 with hq | hq
  · have hceil : pyInt q ≤ 0 := by
      unfold pyInt
      rw [if_neg (not_le.mpr hq)]
      exact Int.ceil_le.mpr (by exact_mod_cast hq.le)
    have hminq : min 100 q = q := min_eq_right (by linarith)
    have hmaxq : max 0 q = 0 := max_eq_left (by linarith)
    rw [hminq, hmaxq]
    have : min 100 (pyInt q) = pyInt q := min_eq_right (by omega)
    rw [this]
    have : max 0 (pyInt q) = 0 := max_eq_left hceil
    rw [this]
    simp [pyInt]
  · rcases le_or_lt q 100 with hq2 | hq2
    · have hminq : min 100 q = q := min_eq_right hq2
      have hmaxq : max 0 q = q := max_eq_right hq
      rw [hminq, hmaxq]
      have hlow : 0 ≤ pyInt q := pyInt_nonneg hq
      have hhigh : pyInt q ≤ 100 := pyInt_le (by exact_mod_cast hq2)
      omega
    · have hminq : min 100 q = 100 := min_eq_left hq2.le
      have hmaxq : max 0 (100 : ℚ) = 100 := max_eq_right (by norm_num)
      rw [hminq, hmaxq]
      have hhigh : (100 : ℤ) ≤ pyInt q := le_pyInt (by exact_mod_cast hq2.le)
      have : min 100 (pyInt q) = 100 := min_eq_left hhigh
      rw [this]
      have h100 : pyInt ((100 : ℤ) : ℚ) = 100 := pyInt_intCast 100
      norm_num at h100
      omega

/-! ## C10 -/

/-- C10: `calculate_budget_score` is total: when `market_average ≤ 0` it
returns the fixed score 50 without reaching the division (which is guarded by
the `market_average <= 0` early return), so it never raises. Totality over all
integer inputs is witnessed by the embedding being a total Lean function. -/
theorem budget_score_total_on_nonpositive_market (price market_average : ℤ)
    (h : market_average ≤ 0) : calculate_budget_score price market_average = 50 := by
  simp [calculate_budget_score, h]

/-- Witness for C10 at `price = 1000`, `market_average = 0`. -/
theorem budget_score_total_on_nonpositive_market_witness :
    (0 : ℤ) ≤ 0 ∧ calculate_budget_score 1000 0 = 50 :=
  ⟨le_rfl, budget_score_total_on_nonpositive_market 1000 0 le_rfl⟩

/-! ## C4 -/

/-- Modelled from the spec wording of the budget curve:
`percentDiff = (price − marketAvg) / marketAvg × 100`,
`budgetScore = clamp(70 + (−percentDiff), 0, 100)` truncated to an integer. -/
def specBudgetScore (price ma : ℤ) : ℤ :=
  let percentDiff : ℚ := ((price : ℚ) - ma) / ma * 100
  pyInt (max 0 (min 100 (70 - percentDiff)))

lemma calculate_budget_score_eq_spec (price ma : ℤ) (h : 0 < ma) :
    calculate_budget_score price ma = specBudgetScore price ma := by
  unfold calculate_budget_score specBudgetScore
  rw [if_neg (not_le.mpr h)]
  rw [clamp_pyInt]
  congr 2
  ring_nf

lemma lookupBy_mem {κ α : Type} [DecidableEq κ] {key : κ} {v : α} :
    ∀ {l : List (κ × α)}, lookupBy key l = some v → (key, v) ∈ l := by
  intro l
  induction l with
  | nil => intro h; simp [lookupBy] at h
  | cons p rest ih =>
    intro h
    rcases p with ⟨k, w⟩
    by_cases hk : k = key
    · subst hk
      simp [lookupBy] at h
      simp [h]
    · simp [lookupBy, hk] at h
      exact List.mem_cons_of_mem _ (ih h)

lemma marketAverage_pos (n : String) (b : ℤ) : 0 < marketAverage n b := by
  unfold marketAverage
  cases h : lookupBy (n, b) marketAverageTable with
  | none =>
    simp only [Option.getD_none]
    split_ifs <;> norm_num
  | some v =>
    simp only [Option.getD_some]
    have hmem := lookupBy_mem h
    have hall : ∀ p ∈ marketAverageTable, 0 < p.2 := by decide
    exact hall _ hmem

lemma calculate_budget_score_self (ma : ℤ) (h : 0 < ma) :
    calculate_budget_score ma ma = 70 := by
  unfold calculate_budget_score
  rw [if_neg (not_le.mpr h)]
  show max 0 (min 100 (pyInt (70 + (((ma : ℚ) - ma) / ma) * 100))) = 70
  have h0 : (70 : ℚ) + (((ma : ℚ) - ma) / ma) * 100 = 70 := by
    simp
  rw [h0]
  have h70 : pyInt (70 : ℚ) = 70 := by
    have := pyInt_intCast 70
    norm_num at this
    exact this
  rw [h70]
  decide

/-- C4: for market average > 0, `calculate_budget_score` equals the spec curve
`clamp(70 + percent-below-market, 0, 100)` truncated to an integer
(`specBudgetScore`, written from the spec's words); a price exactly at market
yields budget score 70, and `BudgetAgent.analyze` then reports
`is_good_deal = False`. -/
theorem budget_curve_matches_spec :
    (∀ price ma : ℤ, 0 < ma →
      calculate_budget_score price ma = specBudgetScore price ma)
    ∧ (∀ ma : ℤ, 0 < ma → calculate_budget_score ma ma = 70)
    ∧ (∀ apt : Apartment, apt.price = marketAverage apt.neighborhood apt.bedrooms →
        (budgetAnalyze apt).budget_score = 70 ∧ (budgetAnalyze apt).is_good_deal = false) := by
  refine ⟨calculate_budget_score_eq_spec, ?_, ?_⟩
  · intro ma h
    exact calculate_budget_score_self ma h
  · intro apt h
    have hpos : 0 < marketAverage apt.neighborhood apt.bedrooms := marketAverage_pos _ _
    constructor
    · simp only [budgetAnalyze]
      rw [h]
      exact calculate_budget_score_self _ hpos
    · simp only [budgetAnalyze]
      rw [h]
      have hma : ((marketAverage apt.neighborhood apt.bedrooms : ℤ) : ℚ) ≠ 0 := by
        exact_mod_cast hpos.ne.symm
      have h0 : (((marketAverage apt.neighborhood apt.bedrooms : ℤ) : ℚ)
          - ((marketAverage apt.neighborhood apt.bedrooms : ℤ) : ℚ))
          / ((marketAverage apt.neighborhood apt.bedrooms : ℤ) : ℚ) * 100 = 0 := by
        simp
      simp [h0]

def aptCentre : Apartment :=
  { id := "a1", title := "T", address := "A", neighborhood := "Centretown",
    price := 1800, bedrooms := 1, bathrooms := 1 }

/-- Witness for C4 at `price = 1600, market = 2000` (the spec's fixture) and at
a Centretown 1-bedroom priced exactly at its market average of 1800. -/
theorem budget_curve_matches_spec_witness :
    calculate_budget_score 1600 2000 = specBudgetScore 1600 2000
    ∧ calculate_budget_score 2000 2000 = 70
    ∧ ((budgetAnalyze aptCentre).budget_score = 70
        ∧ (budgetAnalyze aptCentre).is_good_deal = false) :=
  ⟨budget_curve_matches_spec.1 1600 2000 (by norm_num),
   budget_curve_matches_spec.2.1 2000 (by norm_num),
   budget_curve_matches_spec.2.2 aptCentre (by decide)⟩

/-! ## C6 -/

/-- Modelled from the spec wording of the amenity axis: base 50, independent
additive bonuses gated on priority tag AND feature, clamped to 100. -/
def specAmenityScore (apartment : Apartment) (priorities : List String) : ℤ :=
  min 100 (50
    + (if priorities.contains "pet_friendly" && apartment.pet_friendly then 20 else 0)
    + (if priorities.contains "parking" && apartment.parking_included then 20 else 0)
    + (if priorities.contains "laundry" then
        (if apartment.laundry_type = "in_unit" then 20
         else if apartment.laundry_type = "in_building" then 10 else 0)
       else 0)
    + (if priorities.contains "gym" && apartment.amenities.contains "gym" then 15 else 0))

def aptPetOnly : Apartment :=
  { id := "p1", title := "T", address := "A", neighborhood := "Vanier",
    price := 1500, bedrooms := 1, bathrooms := 1, pet_friendly := true }

def aptThreeMatch : Apartment :=
  { id := "p2", title := "T", address := "A", neighborhood := "Vanier",
    price := 1500, bedrooms := 1, bathrooms := 1, pet_friendly := true,
    parking_included := true, laundry_type := "in_unit" }

/-- C6: `calculate_amenity_score` is base 50 plus the priority-gated bonuses
(+20 pet, +20 parking, +20 in-unit / +10 in-building laundry, +15 gym),
clamped to at most 100; a pet-friendly listing with priorities
`["pet_friendly"]` scores 70, and one matching pet, parking and in-unit
laundry scores 100. -/
theorem amenity_score_matches_spec :
    (∀ (apartment : Apartment) (priorities : List String),
      calculate_amenity_score apartment priorities = specAmenityScore apartment priorities)
    ∧ calculate_amenity_score aptPetOnly ["pet_friendly"] = 70
    ∧ calculate_amenity_score aptThreeMatch ["pet_friendly", "parking", "laundry"] = 100 := by
  refine ⟨?_, by decide, by decide⟩
  intro apartment priorities
  unfold calculate_amenity_score specAmenityScore
  split_ifs <;> norm_num

/-! ## C2 -/

/-- All four axis weights are nonnegative. -/
def WNonneg (w : Weights) : Prop :=
  0 ≤ w.commute ∧ 0 ≤ w.neighborhood ∧ 0 ≤ w.budget ∧ 0 ≤ w.amenities

lemma initialWeights_nonneg (hc : Bool) (cs : Option ℤ) :
    WNonneg (initialWeights hc cs) := by
  unfold initialWeights WNonneg
  split <;> exact ⟨by norm_num, by norm_num, by norm_num, by norm_num⟩

lemma initialWeights_total (hc : Bool) (cs : Option ℤ) :
    (initialWeights hc cs).total = 1 := by
  unfold initialWeights Weights.total
  split <;> norm_num

lemma boost_nonneg {i : ℕ} (hi : i < 3) : 0 ≤ (15/100 : ℚ) * (3 - (i : ℚ)) / 3 := by
  have hle : (i : ℚ) ≤ 2 := by exact_mod_cast Nat.lt_succ_iff.mp hi
  have : (0 : ℚ) ≤ 3 - (i : ℚ) := by linarith
  positivity

lemma boostStep_total_ge (hc : Bool) (w : Weights) {i : ℕ} (p : String) (hi : i < 3) :
    w.total ≤ (boostStep hc w i p).total := by
  have hb := boost_nonneg hi
  unfold boostStep Weights.total
  split_ifs <;> simp <;> linarith

lemma boostStep_nonneg (hc : Bool) {w : Weights} {i : ℕ} (p : String) (hi : i < 3)
    (hw : WNonneg w) : WNonneg (boostStep hc w i p) := by
  have hb := boost_nonneg hi
  obtain ⟨h1, h2, h3, h4⟩ := hw
  unfold boostStep WNonneg
  split_ifs <;> exact ⟨by simp; linarith, by simp; linarith,
    by simp; linarith, by simp; linarith⟩

lemma foldl_boost_total_ge (hc : Bool) :
    ∀ (ps : List (ℕ × String)) (w : Weights), (∀ p ∈ ps, p.1 < 3) →
      w.total ≤ (ps.foldl (fun acc p => boostStep hc acc p.1 p.2) w).total := by
  intro ps
  induction ps with
  | nil => intro w _; simp
  | cons q rest ih =>
    intro w h
    have hq : q.1 < 3 := h q (List.mem_cons_self q rest)
    have hrest : ∀ p ∈ rest, p.1 < 3 := fun p hp => h p (List.mem_cons_of_mem q hp)
    calc w.total ≤ (boostStep hc w q.1 q.2).total := boostStep_total_ge hc w q.2 hq
      _ ≤ _ := by simpa using ih (boostStep hc w q.1 q.2) hrest

lemma foldl_boost_nonneg (hc : Bool) :
    ∀ (ps : List (ℕ × String)) (w : Weights), (∀ p ∈ ps, p.1 < 3) → WNonneg w →
      WNonneg (ps.foldl (fun acc p => boostStep hc acc p.1 p.2) w) := by
  intro ps
  induction ps with
  | nil => intro w _ hw; simpa using hw
  | cons q rest ih =>
    intro w h hw
    have hq : q.1 < 3 := h q (List.mem_cons_self q rest)
    have hrest : ∀ p ∈ rest, p.1 < 3 := fun p hp => h p (List.mem_cons_of_mem q hp)
    simpa using ih (boostStep hc w q.1 q.2) hrest (boostStep_nonneg hc q.2 hq hw)

lemma enum_take3_fst_lt (priorities : List String) :
    ∀ p ∈ (priorities.take 3).enum, p.1 < 3 := by
  rw [List.forall_mem_enum]
  intro i hi
  have := List.length_take 3 priorities
  omega

lemma applyBoosts_total_ge_one (hc : Bool) (cs : Option ℤ) (priorities : List String) :
    1 ≤ (applyBoosts hc (initialWeights hc cs) priorities).total := by
  unfold applyBoosts
  have h := foldl_boost_total_ge hc ((priorities.take 3).enum) (initialWeights hc cs)
    (enum_take3_fst_lt priorities)
  rw [initialWeights_total] at h
  exact h

lemma applyBoosts_nonneg (hc : Bool) (cs : Option ℤ) (priorities : List String) :
    WNonneg (applyBoosts hc (initialWeights hc cs) priorities) :=
  foldl_boost_nonneg hc ((priorities.take 3).enum) (initialWeights hc cs)
    (enum_take3_fst_lt priorities) (initialWeights_nonneg hc cs)

lemma normalizeWeights_total {w : Weights} (h : 0 < w.total) :
    (normalizeWeights w).total = 1 := by
  unfold normalizeWeights
  rw [if_pos h]
  show w.commute / w.total + w.neighborhood / w.total + w.budget / w.total
    + w.amenities / w.total = 1
  rw [div_add_div_same, div_add_div_same, div_add_div_same]
  exact div_self h.ne.symm

lemma normalizeWeights_nonneg {w : Weights} (hw : WNonneg w) (h : 0 < w.total) :
    WNonneg (normalizeWeights w) := by
  obtain ⟨h1, h2, h3, h4⟩ := hw
  unfold normalizeWeights
  rw [if_pos h]
  exact ⟨div_nonneg h1 h.le, div_nonneg h2 h.le, div_nonneg h3 h.le, div_nonneg h4 h.le⟩

lemma finalWeights_total_eq_one (hc : Bool) (cs : Option ℤ) (priorities : List String) :
    (finalWeights hc cs priorities).total = 1 := by
  unfold finalWeights
  exact normalizeWeights_total (lt_of_lt_of_le one_pos (applyBoosts_total_ge_one hc cs priorities))

lemma finalWeights_nonneg (hc : Bool) (cs : Option ℤ) (priorities : List String) :
    WNonneg (finalWeights hc cs priorities) :=
  normalizeWeights_nonneg (applyBoosts_nonneg hc cs priorities)
    (lt_of_lt_of_le one_pos (applyBoosts_total_ge_one hc cs priorities))

/-- C2: for every priority list and `has_commute` flag (and every commute
score), the four axis weights that `calculate_overall_score` multiplies into
the overall score sum to exactly 1 after the priority boosts and the final
renormalization (exact in rational arithmetic, hence within any
floating-point tolerance). -/
theorem overall_weights_sum_to_one (priorities : List String) (has_commute : Bool)
    (commute_score : Option ℤ) :
    (finalWeights has_commute commute_score priorities).commute
      + (finalWeights has_commute commute_score priorities).neighborhood
      + (finalWeights has_commute commute_score priorities).budget
      + (finalWeights has_commute commute_score priorities).amenities = 1 :=
  finalWeights_total_eq_one has_commute commute_score priorities

/-! ## C5 -/

lemma boostStep_commute_false (w : Weights) (i : ℕ) (p : String) :
    (boostStep false w i p).commute = w.commute := by
  unfold boostStep
  split_ifs with h1 h2 h3 h4 <;> simp_all

lemma foldl_boost_commute_false :
    ∀ (ps : List (ℕ × String)) (w : Weights),
      (ps.foldl (fun acc p => boostStep false acc p.1 p.2) w).commute = w.commute := by
  intro ps
  induction ps with
  | nil => intro w; rfl
  | cons q rest ih =>
    intro w
    simpa [boostStep_commute_false] using ih (boostStep false w q.1 q.2)

lemma normalizeWeights_commute_zero {w : Weights} (h : w.commute = 0) :
    (normalizeWeights w).commute = 0 := by
  simp only [normalizeWeights]
  split_ifs <;> simp [h]

lemma finalWeights_commute_zero (cs : Option ℤ) (priorities : List String) :
    (finalWeights false cs priorities).commute = 0 := by
  unfold finalWeights applyBoosts
  apply normalizeWeights_commute_zero
  rw [foldl_boost_commute_false]
  rfl

/-- C5: a search request with neither a (truthy) work address nor a pinned
location has `has_work_location = False`; the weight dictionary then starts at
`(commute 0, neighborhood 0.35, budget 0.35, amenities 0.30)`, the commute
weight is still exactly 0 after the priority boosts (a `short_commute`
priority adds nothing) and renormalization, and the overall score equals the
commute-free weighted sum regardless of any stored commute score. -/
theorem no_work_location_commute_weight_zero (request : SearchRequest)
    (cs : Option ℤ) (ns bs amen : ℤ)
    (hwa : request.work_address = none ∨ request.work_address = some "")
    (hp : request.pinned_lat = none ∨ request.pinned_lng = none) :
    request.hasWorkLocation = false
    ∧ initialWeights request.hasWorkLocation cs = ⟨0, 35/100, 35/100, 30/100⟩
    ∧ (finalWeights request.hasWorkLocation cs request.priorities).commute = 0
    ∧ calculate_overall_score cs ns bs amen request.priorities request.hasWorkLocation
        = pyInt ((ns : ℚ)
            * (finalWeights request.hasWorkLocation cs request.priorities).neighborhood
          + (bs : ℚ)
            * (finalWeights request.hasWorkLocation cs request.priorities).budget
          + (amen : ℚ)
            * (finalWeights request.hasWorkLocation cs request.priorities).amenities) := by
  have hwl : request.hasWorkLocation = false := by
    unfold SearchRequest.hasWorkLocation SearchRequest.has_pinned_location
    rcases hwa with h | h <;> rcases hp with h2 | h2 <;> simp [h, h2]
  refine ⟨hwl, ?_, ?_, ?_⟩
  · rw [hwl]
    unfold initialWeights
    simp
  · rw [hwl]; exact finalWeights_commute_zero cs request.priorities
  · rw [hwl]
    unfold calculate_overall_score
    have hw0 : (finalWeights false cs request.priorities).commute = 0 :=
      finalWeights_commute_zero cs request.priorities
    cases cs <;> simp [hw0]

def reqNoWork : SearchRequest :=
  { budget_min := 1500, budget_max := 2500, work_address := none,
    priorities := ["short_commute", "safe_area"] }

/-- Witness for C5: no work address, no pin, a `short_commute` priority in
first position, and a stored commute score of 77 that must not contribute. -/
theorem no_work_location_commute_weight_zero_witness :
    (reqNoWork.work_address = none ∨ reqNoWork.work_address = some "")
    ∧ (reqNoWork.pinned_lat = none ∨ reqNoWork.pinned_lng = none)
    ∧ (reqNoWork.hasWorkLocation = false
      ∧ initialWeights reqNoWork.hasWorkLocation (some 77) = ⟨0, 35/100, 35/100, 30/100⟩
      ∧ (finalWeights reqNoWork.hasWorkLocation (some 77) reqNoWork.priorities).commute = 0
      ∧ calculate_overall_score (some 77) 80 60 50 reqNoWork.priorities
          reqNoWork.hasWorkLocation
          = pyInt ((80 : ℚ)
              * (finalWeights reqNoWork.hasWorkLocation (some 77) reqNoWork.priorities).neighborhood
            + (60 : ℚ)
              * (finalWeights reqNoWork.hasWorkLocation (some 77) reqNoWork.priorities).budget
            + (50 : ℚ)
              * (finalWeights reqNoWork.hasWorkLocation (some 77) reqNoWork.priorities).amenities)) :=
  ⟨Or.inl rfl, Or.inl rfl,
    no_work_location_commute_weight_zero reqNoWork (some 77) 80 60 50
      (Or.inl rfl) (Or.inl rfl)⟩

/-! ## C8 -/

lemma foldl_min_step_some :
    ∀ (l : List (String × ℤ)) (a : String × ℤ),
      (l.foldl
        (fun acc p =>
          match acc with
          | none => some p
          | some q => if p.2 < q.2 then some p else some q)
        (some a))
      = some (match firstMinBy l with
              | none => a
              | some q => if q.2 < a.2 then q else a) := by
  intro l
  induction l with
  | nil => intro a; rfl
  | cons b l ih =>
    intro a
    show (l.foldl _ (if b.2 < a.2 then some b else some a)) = _
    have hbl : firstMinBy (b :: l)
        = some (match firstMinBy l with | none => b | some q => if q.2 < b.2 then q else b) :=
      ih b
    by_cases hba : b.2 < a.2
    · rw [if_pos hba, ih b, hbl]
      rcases h : firstMinBy l with _ | q
      · simp only
        rw [if_pos hba]
      · simp only
        split_ifs <;> first | rfl | omega
    · rw [if_neg hba, ih a, hbl]
      rcases h : firstMinBy l with _ | q
      · simp only
        rw [if_neg hba]
      · simp only
        split_ifs <;> first | rfl | omega

lemma firstMinBy_cons (a : String × ℤ) (l : List (String × ℤ)) :
    firstMinBy (a :: l)
      = some (match firstMinBy l with
              | none => a
              | some q => if q.2 < a.2 then q else a) :=
  foldl_min_step_some l a

lemma firstMinBy_spec :
    ∀ (l : List (String × ℤ)), l ≠ [] →
      ∃ m t, firstMinBy l = some (m, t) ∧ (∀ p ∈ l, t ≤ p.2)
        ∧ ∃ pre post, l = pre ++ (m, t) :: post ∧ ∀ p ∈ pre, t < p.2 := by
  intro l
  induction l with
  | nil => intro h; exact absurd rfl h
  | cons a l ih =>
    intro _
    rcases l with _ | ⟨b, l2⟩
    · refine ⟨a.1, a.2, ?_, ?_, [], [], by simp, by simp⟩
      · rw [firstMinBy_cons]
        rfl
      · intro p hp
        rcases List.mem_singleton.mp hp with rfl
        exact le_rfl
    · obtain ⟨m, t, hmin, hle, pre, post, hdec, hpre⟩ := ih (by simp)
      rw [firstMinBy_cons, hmin]
      by_cases hta : t < a.2
      · refine ⟨m, t, by simp [hta], ?_, a :: pre, post, by rw [hdec]; simp, ?_⟩
        · intro p hp
          rcases List.mem_cons.mp hp with rfl | hp2
          · exact hta.le
          · exact hle p hp2
        · intro p hp
          rcases List.mem_cons.mp hp with rfl | hp2
          · exact hta
          · exact hpre p hp2
      · refine ⟨a.1, a.2, by simp [hta], ?_, [], b :: l2, by simp, by simp⟩
        intro p hp
        rcases List.mem_cons.mp hp with rfl | hp2
        · exact le_rfl
        · exact le_trans (not_lt.mp hta) (hle p hp2)

/-- C8: in `CommuteAgent.analyze`, the selected best mode is the one holding
the minimum travel time among the successfully resolved modes, and a tie on
the minimum is won by the earliest mode in the fixed insertion order
transit, driving, biking, walking of the `times` dict (Python's
`min(valid_times, key=valid_times.get)` keeps the first minimum); the chosen
pair is stored in the returned analysis's `best_mode`/`best_time`. -/
theorem best_mode_is_first_minimum (hav : ℚ → ℚ → ℚ → ℚ → ℚ)
    (apt : Apartment) (dest : Destination) (mode : String) (tts : TravelTimes)
    (la ln : ℚ) (hlat : apt.lat = some la) (hlng : apt.lng = some ln)
    (h : validTimes tts.transit tts.driving tts.biking tts.walking ≠ []) :
    ∃ m t, firstMinBy (validTimes tts.transit tts.driving tts.biking tts.walking)
        = some (m, t)
      ∧ (commuteAnalyze hav true (some tts) apt dest mode).best_mode = some m
      ∧ (commuteAnalyze hav true (some tts) apt dest mode).best_time = some t
      ∧ (∀ p ∈ validTimes tts.transit tts.driving tts.biking tts.walking, t ≤ p.2)
      ∧ ∃ pre post,
          validTimes tts.transit tts.driving tts.biking tts.walking
            = pre ++ (m, t) :: post
          ∧ ∀ p ∈ pre, t < p.2 := by
  obtain ⟨m, t, hmin, hle, pre, post, hdec, hpre⟩ := firstMinBy_spec _ h
  refine ⟨m, t, hmin, ?_, ?_, hle, pre, post, hdec, hpre⟩ <;>
    simp [commuteAnalyze, hlat, hlng, hmin]

def ttsTie : TravelTimes := ⟨some 20, some 20, none, some 35⟩

def aptWithCoords : Apartment :=
  { id := "c1", title := "T", address := "A", neighborhood := "Centretown",
    price := 1800, bedrooms := 1, bathrooms := 1,
    lat := some (455/10), lng := some (-756/10) }

/-- Witness for C8: transit and driving tie at 20 minutes; the earlier mode in
the fixed order (transit) must win. -/
theorem best_mode_is_first_minimum_witness :
    aptWithCoords.lat = some (455/10) ∧ aptWithCoords.lng = some (-756/10)
    ∧ validTimes ttsTie.transit ttsTie.driving ttsTie.biking ttsTie.walking ≠ []
    ∧ (∃ m t, firstMinBy (validTimes ttsTie.transit ttsTie.driving ttsTie.biking
          ttsTie.walking) = some (m, t)
        ∧ (commuteAnalyze (fun _ _ _ _ => 0) true (some ttsTie) aptWithCoords
            (.addr "work") "transit").best_mode = some m
        ∧ (commuteAnalyze (fun _ _ _ _ => 0) true (some ttsTie) aptWithCoords
            (.addr "work") "transit").best_time = some t
        ∧ (∀ p ∈ validTimes ttsTie.transit ttsTie.driving ttsTie.biking
            ttsTie.walking, t ≤ p.2)
        ∧ ∃ pre post,
            validTimes ttsTie.transit ttsTie.driving ttsTie.biking ttsTie.walking
              = pre ++ (m, t) :: post
            ∧ ∀ p ∈ pre, t < p.2) :=
  ⟨rfl, rfl, by decide,
    best_mode_is_first_minimum (fun _ _ _ _ => 0) aptWithCoords (.addr "work")
      "transit" ttsTie (455/10) (-756/10) rfl rfl (by decide)⟩

/-! ## C9 -/

def aptNoCoords : Apartment :=
  { id := "n1", title := "T", address := "A", neighborhood := "Vanier",
    price := 1500, bedrooms := 1, bathrooms := 1, lat := none, lng := none }

/-- C9 counterexample: with coordinates absent the degraded summary is the
capitalized string `"Location unknown"`, not `"location unknown"` as the
claim states. -/
theorem missing_coords_summary_not_lowercase :
    (commuteAnalyze (fun _ _ _ _ => 0) false none aptNoCoords (.addr "w")
        "transit").summary = some "Location unknown"
    ∧ (commuteAnalyze (fun _ _ _ _ => 0) false none aptNoCoords (.addr "w")
        "transit").summary ≠ some "location unknown" := by
  constructor
  · rfl
  · decide

/-- C9 (amended): for every apartment whose coordinates are absent, for any
collaborator behaviour, `CommuteAgent.analyze` returns the fixed degraded
analysis: score exactly 50, summary `"Location unknown"` (capital L as
written in `_fallback_analysis`), all per-mode minutes `None` — a total
function, hence never an error past its boundary. -/
theorem missing_coords_degraded_result (hav : ℚ → ℚ → ℚ → ℚ → ℚ)
    (api : Bool) (travel : Option TravelTimes) (apt : Apartment)
    (dest : Destination) (mode : String)
    (h : apt.lat = none ∨ apt.lng = none) :
    commuteAnalyze hav api travel apt dest mode
      = { apartment_id := apt.id, transit_minutes := none, driving_minutes := none,
          biking_minutes := none, walking_minutes := none, best_mode := some mode,
          best_time := some 0, commute_score := some 50,
          summary := some "Location unknown" } := by
  have hfb : fallback_analysis hav apt.id mode (some apt) (some dest)
      = { apartment_id := apt.id, transit_minutes := none, driving_minutes := none,
          biking_minutes := none, walking_minutes := none, best_mode := some mode,
          best_time := some 0, commute_score := some 50,
          summary := some "Location unknown" } := by
    rcases h with h | h <;>
      rcases hlat : apt.lat with _ | la <;>
      rcases hlng : apt.lng with _ | ln <;>
      simp_all [fallback_analysis, fallbackUnknownAnalysis]
  unfold commuteAnalyze
  rw [if_pos h, hfb]

/-- Witness for C9 at a concrete coordinate-less apartment. -/
theorem missing_coords_degraded_result_witness :
    (aptNoCoords.lat = none ∨ aptNoCoords.lng = none)
    ∧ commuteAnalyze (fun _ _ _ _ => 1) true (some ⟨some 5, none, none, none⟩)
        aptNoCoords (.coords 45 (-75)) "driving"
      = { apartment_id := aptNoCoords.id, transit_minutes := none,
          driving_minutes := none, biking_minutes := none, walking_minutes := none,
          best_mode := some "driving", best_time := some 0,
          commute_score := some 50, summary := some "Location unknown" } :=
  ⟨Or.inl rfl,
    missing_coords_degraded_result (fun _ _ _ _ => 1) true
      (some ⟨some 5, none, none, none⟩) aptNoCoords (.coords 45 (-75)) "driving"
      (Or.inl rfl)⟩

/-! ## C7 -/

/-- C7: two runs of the pipeline over the same criteria, the same candidate
list and the same collaborator environment produce identical ranked
recommendation lists (with all their per-axis analyses and scores) and the
same candidate count; only the freshly generated `search_id` and the
timestamp can differ. -/
theorem search_deterministic (env : PipelineEnv) (sid1 t1 sid2 t2 : String)
    (request : SearchRequest) (apartments : List Apartment) :
    (coordinatorSearch env sid1 t1 request apartments).recommendations
      = (coordinatorSearch env sid2 t2 request apartments).recommendations
    ∧ (coordinatorSearch env sid1 t1 request apartments).total_found
      = (coordinatorSearch env sid2 t2 request apartments).total_found := by
  unfold coordinatorSearch
  by_cases h : apartments.isEmpty <;> simp [h]

/-! ## Score-range lemmas (C1) -/

lemma steppedCommuteScore_bounds (t : ℤ) :
    0 ≤ steppedCommuteScore t ∧ steppedCommuteScore t ≤ 100 := by
  unfold steppedCommuteScore
  split_ifs <;> norm_num

lemma fallbackBandScore_bounds (d : ℚ) :
    0 ≤ fallbackBandScore d ∧ fallbackBandScore d ≤ 100 := by
  unfold fallbackBandScore
  split_ifs <;> norm_num

lemma fallbackDistance_score_eq (hav : ℚ → ℚ → ℚ → ℚ → ℚ) (aid mode : String)
    (la ln : ℚ) (dest : Destination) :
    (fallbackDistanceAnalysis hav aid mode la ln dest).commute_score
      = some (fallbackBandScore
          (hav la ln (fallbackDestCoords dest).1 (fallbackDestCoords dest).2)) := rfl

lemma fallbackUnknown_score_eq (aid mode : String) :
    (fallbackUnknownAnalysis aid mode).commute_score = some 50 := rfl

lemma fallback_score_bounds (hav : ℚ → ℚ → ℚ → ℚ → ℚ) (aid mode : String)
    (apartment : Option Apartment) (destination : Option Destination) :
    ∀ c, (fallback_analysis hav aid mode apartment destination).commute_score = some c →
      0 ≤ c ∧ c ≤ 100 := by
  have hunk : ∀ c, (fallbackUnknownAnalysis aid mode).commute_score = some c →
      0 ≤ c ∧ c ≤ 100 := by
    intro c hc
    rw [fallbackUnknown_score_eq, Option.some_inj] at hc
    omega
  intro c hc
  rcases apartment with _ | apt
  · exact hunk c hc
  rcases destination with _ | dest
  · exact hunk c hc
  rcases hla : apt.lat with _ | la <;> rcases hln : apt.lng with _ | ln <;>
    rw [fallback_analysis, hla, hln] at hc <;>
    dsimp only at hc
  · exact hunk c hc
  · exact hunk c hc
  · exact hunk c hc
  · split_ifs at hc
    · rw [fallbackDistance_score_eq, Option.some_inj] at hc
      rw [← hc]
      exact fallbackBandScore_bounds _
    · exact hunk c hc

lemma commuteAnalyze_score_bounds (hav : ℚ → ℚ → ℚ → ℚ → ℚ) (api : Bool)
    (travel : Option TravelTimes) (apt : Apartment) (dest : Destination)
    (mode : String) :
    ∀ c, (commuteAnalyze hav api travel apt dest mode).commute_score = some c →
      0 ≤ c ∧ c ≤ 100 := by
  intro c hc
  unfold commuteAnalyze at hc
  split_ifs at hc
  · exact fallback_score_bounds _ _ _ _ _ c hc
  · exact fallback_score_bounds _ _ _ _ _ c hc
  · rcases travel with _ | tts
    · exact fallback_score_bounds _ _ _ _ _ c hc
    · simp only [Option.some_inj] at hc
      rw [← hc]
      exact steppedCommuteScore_bounds _

lemma calculate_budget_score_bounds (p ma : ℤ) :
    0 ≤ calculate_budget_score p ma ∧ calculate_budget_score p ma ≤ 100 := by
  unfold calculate_budget_score
  split_ifs <;> (try dsimp only) <;> omega

lemma calculate_amenity_score_bounds (apt : Apartment) (pr : List String) :
    0 ≤ calculate_amenity_score apt pr ∧ calculate_amenity_score apt pr ≤ 100 := by
  unfold calculate_amenity_score
  split_ifs <;> (try dsimp only) <;> omega

lemma le_foldl_max : ∀ (xs : List ℚ) (a : ℚ), a ≤ xs.foldl max a := by
  intro xs
  induction xs with
  | nil => intro a; exact le_rfl
  | cons x xs ih =>
    intro a
    exact le_trans (le_max_left a x) (ih (max a x))

lemma mem_le_foldl_max : ∀ (xs : List ℚ) (a x : ℚ), x ∈ xs → x ≤ xs.foldl max a := by
  intro xs
  induction xs with
  | nil => intro a x hx; simp at hx
  | cons y xs ih =>
    intro a x hx
    rcases List.mem_cons.mp hx with rfl | hx2
    · exact le_trans (le_max_right a x) (le_foldl_max xs (max a x))
    · exact ih (max a y) x hx2

lemma le_maxList {l : List ℚ} {x : ℚ} (h : x ∈ l) : x ≤ maxList l := by
  rcases l with _ | ⟨a, xs⟩
  · simp at h
  · unfold maxList
    rcases List.mem_cons.mp h with rfl | h2
    · exact le_foldl_max xs x
    · exact mem_le_foldl_max xs a x h2

lemma foldl_min_le : ∀ (xs : List ℚ) (a : ℚ), xs.foldl min a ≤ a := by
  intro xs
  induction xs with
  | nil => intro a; exact le_rfl
  | cons x xs ih =>
    intro a
    exact le_trans (ih (min a x)) (min_le_left a x)

lemma foldl_min_le_mem : ∀ (xs : List ℚ) (a x : ℚ), x ∈ xs → xs.foldl min a ≤ x := by
  intro xs
  induction xs with
  | nil => intro a x hx; simp at hx
  | cons y xs ih =>
    intro a x hx
    rcases List.mem_cons.mp hx with rfl | hx2
    · exact le_trans (foldl_min_le xs (min a x)) (min_le_right a x)
    · exact ih (min a y) x hx2

lemma minList_le {l : List ℚ} {x : ℚ} (h : x ∈ l) : minList l ≤ x := by
  rcases l with _ | ⟨a, xs⟩
  · simp at h
  · unfold minList
    rcases List.mem_cons.mp h with rfl | h2
    · exact foldl_min_le xs x
    · exact foldl_min_le_mem xs a x h2

lemma normalized_map_entry_bounds (L : List (String × ℚ)) {n : String} {s : ℤ}
    (h : (n, s) ∈ L.map (fun p =>
      (p.1, pyInt (95 -
        (if maxList (L.map Prod.snd) = minList (L.map Prod.snd) then (1/2 : ℚ)
         else (p.2 - minList (L.map Prod.snd))
           / (maxList (L.map Prod.snd) - minList (L.map Prod.snd))) * 55)))) :
    40 ≤ s ∧ s ≤ 95 := by
  rw [List.mem_map] at h
  obtain ⟨p, hpL, hgp⟩ := h
  rw [Prod.mk.injEq] at hgp
  obtain ⟨_, hs⟩ := hgp
  set M := maxList (L.map Prod.snd) with hM
  set m := minList (L.map Prod.snd) with hm
  have hpv : p.2 ∈ L.map Prod.snd := List.mem_map_of_mem Prod.snd hpL
  have hminp : m ≤ p.2 := minList_le hpv
  have hmaxp : p.2 ≤ M := le_maxList hpv
  have hnorm : 0 ≤ (if M = m then (1/2 : ℚ) else (p.2 - m) / (M - m))
      ∧ (if M = m then (1/2 : ℚ) else (p.2 - m) / (M - m)) ≤ 1 := by
    split_ifs with he
    · norm_num
    · have hlt : m < M := lt_of_le_of_ne (le_trans hminp hmaxp) (Ne.symm he)
      have hden : 0 < M - m := by linarith
      constructor
      · exact div_nonneg (by linarith) hden.le
      · rw [div_le_one hden]
        linarith
  set nrm : ℚ := if M = m then (1/2 : ℚ) else (p.2 - m) / (M - m) with hnrmdef
  have h40 : (40 : ℚ) ≤ 95 - nrm * 55 := by nlinarith [hnorm.2]
  have h95 : 95 - nrm * 55 ≤ (95 : ℚ) := by nlinarith [hnorm.1]
  rw [← hs]
  exact ⟨le_pyInt (by exact_mod_cast h40), pyInt_le (by exact_mod_cast h95)⟩

lemma calcSafetyScores_cons (d : String × List (String × ℕ)) (ds : CrimeData) :
    calcSafetyScores (d :: ds)
      = (List.map (fun p => (p.1, weightedCrime p.2)) (d :: ds)).map (fun p =>
          (p.1, pyInt (95 -
            (if maxList (((d :: ds).map (fun p => (p.1, weightedCrime p.2))).map Prod.snd)
                = minList (((d :: ds).map (fun p => (p.1, weightedCrime p.2))).map Prod.snd)
             then (1/2 : ℚ)
             else (p.2 - minList (((d :: ds).map
                    (fun p => (p.1, weightedCrime p.2))).map Prod.snd))
               / (maxList (((d :: ds).map (fun p => (p.1, weightedCrime p.2))).map Prod.snd)
                 - minList (((d :: ds).map
                     (fun p => (p.1, weightedCrime p.2))).map Prod.snd))) * 55))) := rfl

lemma safety_lookup_bounds {data : CrimeData} {n : String} {s : ℤ}
    (h : lookupBy n (calcSafetyScores data) = some s) : 40 ≤ s ∧ s ≤ 95 := by
  rcases data with _ | ⟨d, ds⟩
  · simp [calcSafetyScores, lookupBy] at h
  · rw [calcSafetyScores_cons] at h
    exact normalized_map_entry_bounds _ (lookupBy_mem h)

lemma sum_div_length_pyInt_bounds (l : List ℤ) (hne : l ≠ [])
    (hb : ∀ x ∈ l, 0 ≤ x ∧ x ≤ 100) :
    0 ≤ pyInt ((l.sum : ℚ) / (l.length : ℚ))
    ∧ pyInt ((l.sum : ℚ) / (l.length : ℚ)) ≤ 100 := by
  have hlen : 0 < (l.length : ℚ) := by
    have := List.length_pos.mpr hne
    exact_mod_cast this
  have hsum0 : 0 ≤ l.sum := List.sum_nonneg (fun x hx => (hb x hx).1)
  have hsum100 : l.sum ≤ 100 * l.length := by
    have := List.sum_le_card_nsmul l 100 (fun x hx => (hb x hx).2)
    simpa [nsmul_eq_mul, mul_comm] using this
  have hq0 : 0 ≤ (l.sum : ℚ) / (l.length : ℚ) :=
    div_nonneg (by exact_mod_cast hsum0) hlen.le
  have hq100 : (l.sum : ℚ) / (l.length : ℚ) ≤ 100 := by
    rw [div_le_iff₀ hlen]
    exact_mod_cast hsum100
  exact ⟨pyInt_nonneg hq0, pyInt_le (by exact_mod_cast hq100)⟩

/-- The averaging set of `NeighborhoodAgent.analyze` (its `scores` list). -/
def nbScores (data : CrimeData) (apartment : Apartment)
    (priorities : List String) : List ℤ :=
  let safety_score := (lookupBy apartment.neighborhood (calcSafetyScores data)).getD 70
  let am := (lookupBy apartment.neighborhood neighborhoodAmenityTable).getD defaultAmenityInfo
  [safety_score, am.walkability_score]
    ++ (if priorities.contains "nightlife" then [am.nightlife_score] else [])
    ++ (if priorities.contains "quiet_area" then [am.quiet_score] else [])

lemma neighborhoodAnalyze_score_eq (data : CrimeData) (apartment : Apartment)
    (priorities : List String) :
    (neighborhoodAnalyze data apartment priorities).neighborhood_score
      = pyInt (((nbScores data apartment priorities).sum : ℚ)
          / ((nbScores data apartment priorities).length : ℚ)) := rfl

lemma amenityTable_bounds : ∀ p ∈ neighborhoodAmenityTable,
    (0 ≤ p.2.walkability_score ∧ p.2.walkability_score ≤ 100)
    ∧ (0 ≤ p.2.nightlife_score ∧ p.2.nightlife_score ≤ 100)
    ∧ (0 ≤ p.2.quiet_score ∧ p.2.quiet_score ≤ 100) := by decide

lemma nbScores_mem_bounds (data : CrimeData) (apartment : Apartment)
    (priorities : List String) :
    ∀ x ∈ nbScores data apartment priorities, 0 ≤ x ∧ x ≤ 100 := by
  have hsafety : 0 ≤ (lookupBy apartment.neighborhood (calcSafetyScores data)).getD 70
      ∧ (lookupBy apartment.neighborhood (calcSafetyScores data)).getD 70 ≤ 100 := by
    cases h : lookupBy apartment.neighborhood (calcSafetyScores data) with
    | none => simp
    | some s =>
      have := safety_lookup_bounds h
      simp only [Option.getD_some]
      omega
  have ham : (0 ≤ ((lookupBy apartment.neighborhood
        neighborhoodAmenityTable).getD defaultAmenityInfo).walkability_score
      ∧ ((lookupBy apartment.neighborhood
        neighborhoodAmenityTable).getD defaultAmenityInfo).walkability_score ≤ 100)
      ∧ (0 ≤ ((lookupBy apartment.neighborhood
        neighborhoodAmenityTable).getD defaultAmenityInfo).nightlife_score
      ∧ ((lookupBy apartment.neighborhood
        neighborhoodAmenityTable).getD defaultAmenityInfo).nightlife_score ≤ 100)
      ∧ (0 ≤ ((lookupBy apartment.neighborhood
        neighborhoodAmenityTable).getD defaultAmenityInfo).quiet_score
      ∧ ((lookupBy apartment.neighborhood
        neighborhoodAmenityTable).getD defaultAmenityInfo).quiet_score ≤ 100) := by
    cases h : lookupBy apartment.neighborhood neighborhoodAmenityTable with
    | none =>
      simp only [Option.getD_none]
      refine ⟨⟨?_, ?_⟩, ⟨?_, ?_⟩, ?_, ?_⟩ <;> decide
    | some info =>
      simp only [Option.getD_some]
      exact amenityTable_bounds _ (lookupBy_mem h)
  unfold nbScores
  split_ifs <;> intro x hx <;>
    simp only [List.mem_append, List.mem_cons, List.mem_singleton,
      List.not_mem_nil, or_false, or_assoc] at hx <;>
    casesm* _ ∨ _ <;> subst_vars <;>
    first
    | exact hsafety
    | exact ham.1
    | exact ham.2.1
    | exact ham.2.2

lemma neighborhoodAnalyze_score_bounds (data : CrimeData) (apartment : Apartment)
    (priorities : List String) :
    0 ≤ (neighborhoodAnalyze data apartment priorities).neighborhood_score
    ∧ (neighborhoodAnalyze data apartment priorities).neighborhood_score ≤ 100 := by
  rw [neighborhoodAnalyze_score_eq]
  apply sum_div_length_pyInt_bounds
  · unfold nbScores
    split_ifs <;> simp
  · exact nbScores_mem_bounds data apartment priorities

lemma weighted_sum_pyInt_bounds (w : Weights) (hw : WNonneg w) (ht : w.total = 1)
    (sc ns bs amen : ℤ)
    (h1 : 0 ≤ sc ∧ sc ≤ 100) (h2 : 0 ≤ ns ∧ ns ≤ 100)
    (h3 : 0 ≤ bs ∧ bs ≤ 100) (h4 : 0 ≤ amen ∧ amen ≤ 100) :
    0 ≤ pyInt ((sc : ℚ) * w.commute + (ns : ℚ) * w.neighborhood
        + (bs : ℚ) * w.budget + (amen : ℚ) * w.amenities)
    ∧ pyInt ((sc : ℚ) * w.commute + (ns : ℚ) * w.neighborhood
        + (bs : ℚ) * w.budget + (amen : ℚ) * w.amenities) ≤ 100 := by
  obtain ⟨hwc, hwn, hwb, hwa⟩ := hw
  unfold Weights.total at ht
  have q1 : (0 : ℚ) ≤ sc ∧ (sc : ℚ) ≤ 100 :=
    ⟨by exact_mod_cast h1.1, by exact_mod_cast h1.2⟩
  have q2 : (0 : ℚ) ≤ ns ∧ (ns : ℚ) ≤ 100 :=
    ⟨by exact_mod_cast h2.1, by exact_mod_cast h2.2⟩
  have q3 : (0 : ℚ) ≤ bs ∧ (bs : ℚ) ≤ 100 :=
    ⟨by exact_mod_cast h3.1, by exact_mod_cast h3.2⟩
  have q4 : (0 : ℚ) ≤ amen ∧ (amen : ℚ) ≤ 100 :=
    ⟨by exact_mod_cast h4.1, by exact_mod_cast h4.2⟩
  have e1 : (sc : ℚ) * w.commute ≤ 100 * w.commute :=
    mul_le_mul_of_nonneg_right q1.2 hwc
  have e2 : (ns : ℚ) * w.neighborhood ≤ 100 * w.neighborhood :=
    mul_le_mul_of_nonneg_right q2.2 hwn
  have e3 : (bs : ℚ) * w.budget ≤ 100 * w.budget :=
    mul_le_mul_of_nonneg_right q3.2 hwb
  have e4 : (amen : ℚ) * w.amenities ≤ 100 * w.amenities :=
    mul_le_mul_of_nonneg_right q4.2 hwa
  have hlow : (0 : ℚ) ≤ (sc : ℚ) * w.commute + (ns : ℚ) * w.neighborhood
      + (bs : ℚ) * w.budget + (amen : ℚ) * w.amenities := by
    have := mul_nonneg q1.1 hwc
    have := mul_nonneg q2.1 hwn
    have := mul_nonneg q3.1 hwb
    have := mul_nonneg q4.1 hwa
    linarith
  have hhigh : (sc : ℚ) * w.commute + (ns : ℚ) * w.neighborhood
      + (bs : ℚ) * w.budget + (amen : ℚ) * w.amenities ≤ 100 := by
    have : (100 : ℚ) * w.commute + 100 * w.neighborhood + 100 * w.budget
        + 100 * w.amenities = 100 := by linarith
    linarith
  exact ⟨pyInt_nonneg hlow, pyInt_le (by exact_mod_cast hhigh)⟩

lemma calculate_overall_score_bounds (cs : Option ℤ) (ns bs amen : ℤ)
    (pr : List String) (hc : Bool)
    (hcs : ∀ c, cs = some c → 0 ≤ c ∧ c ≤ 100)
    (hns : 0 ≤ ns ∧ ns ≤ 100) (hbs : 0 ≤ bs ∧ bs ≤ 100)
    (hamen : 0 ≤ amen ∧ amen ≤ 100) :
    0 ≤ calculate_overall_score cs ns bs amen pr hc
    ∧ calculate_overall_score cs ns bs amen pr hc ≤ 100 := by
  have hw := finalWeights_nonneg hc cs pr
  have ht := finalWeights_total_eq_one hc cs pr
  unfold calculate_overall_score
  rcases cs with _ | c <;> cases hc <;> dsimp only
  · exact weighted_sum_pyInt_bounds _ hw ht 0 ns bs amen
      ⟨le_rfl, by norm_num⟩ hns hbs hamen
  · exact weighted_sum_pyInt_bounds _ hw ht 0 ns bs amen
      ⟨le_rfl, by norm_num⟩ hns hbs hamen
  · exact weighted_sum_pyInt_bounds _ hw ht 0 ns bs amen
      ⟨le_rfl, by norm_num⟩ hns hbs hamen
  · exact weighted_sum_pyInt_bounds _ hw ht c ns bs amen
      (hcs c rfl) hns hbs hamen

lemma analyzeOne_commute (env : PipelineEnv) (req : SearchRequest) (hwl : Bool)
    (apt : Apartment) :
    (analyzeOne env req hwl apt).1.commute
      = if hwl then
          commuteAnalyze env.haversineKm env.api_available (env.travel apt) apt
            req.destination req.transport_mode
        else emptyCommute apt.id := rfl

lemma analyzeOne_neighborhood (env : PipelineEnv) (req : SearchRequest) (hwl : Bool)
    (apt : Apartment) :
    (analyzeOne env req hwl apt).1.neighborhood
      = neighborhoodAnalyze env.crime apt req.priorities := rfl

lemma analyzeOne_budget (env : PipelineEnv) (req : SearchRequest) (hwl : Bool)
    (apt : Apartment) :
    (analyzeOne env req hwl apt).1.budget = budgetAnalyze apt := rfl

lemma analyzeOne_apartment (env : PipelineEnv) (req : SearchRequest) (hwl : Bool)
    (apt : Apartment) :
    (analyzeOne env req hwl apt).1.apartment = apt := rfl

lemma analyzeOne_overall (env : PipelineEnv) (req : SearchRequest) (hwl : Bool)
    (apt : Apartment) :
    (analyzeOne env req hwl apt).1.overall_score
      = calculate_overall_score (analyzeOne env req hwl apt).1.commute.commute_score
          (neighborhoodAnalyze env.crime apt req.priorities).neighborhood_score
          (budgetAnalyze apt).budget_score
          (calculate_amenity_score apt req.priorities) req.priorities hwl := rfl

lemma budgetAnalyze_budget_score (apt : Apartment) :
    (budgetAnalyze apt).budget_score
      = calculate_budget_score apt.price (marketAverage apt.neighborhood apt.bedrooms) := rfl

lemma analyzeOne_bounds (env : PipelineEnv) (req : SearchRequest) (hwl : Bool)
    (apt : Apartment) :
    (∀ c, (analyzeOne env req hwl apt).1.commute.commute_score = some c →
        0 ≤ c ∧ c ≤ 100)
    ∧ (0 ≤ (analyzeOne env req hwl apt).1.neighborhood.neighborhood_score
        ∧ (analyzeOne env req hwl apt).1.neighborhood.neighborhood_score ≤ 100)
    ∧ (0 ≤ (analyzeOne env req hwl apt).1.budget.budget_score
        ∧ (analyzeOne env req hwl apt).1.budget.budget_score ≤ 100)
    ∧ (0 ≤ (analyzeOne env req hwl apt).1.overall_score
        ∧ (analyzeOne env req hwl apt).1.overall_score ≤ 100) := by
  have hcom : ∀ c, (analyzeOne env req hwl apt).1.commute.commute_score = some c →
      0 ≤ c ∧ c ≤ 100 := by
    rw [analyzeOne_commute]
    cases hwl
    · intro c hc
      simp [emptyCommute] at hc
    · intro c hc
      rw [if_pos rfl] at hc
      exact commuteAnalyze_score_bounds _ _ _ _ _ _ c hc
  have hnb : 0 ≤ (analyzeOne env req hwl apt).1.neighborhood.neighborhood_score
      ∧ (analyzeOne env req hwl apt).1.neighborhood.neighborhood_score ≤ 100 := by
    rw [analyzeOne_neighborhood]
    exact neighborhoodAnalyze_score_bounds _ _ _
  have hbg : 0 ≤ (analyzeOne env req hwl apt).1.budget.budget_score
      ∧ (analyzeOne env req hwl apt).1.budget.budget_score ≤ 100 := by
    rw [analyzeOne_budget, budgetAnalyze_budget_score]
    exact calculate_budget_score_bounds _ _
  refine ⟨hcom, hnb, hbg, ?_⟩
  rw [analyzeOne_overall]
  exact calculate_overall_score_bounds _ _ _ _ _ _ hcom
    (neighborhoodAnalyze_score_bounds env.crime apt req.priorities)
    (calculate_budget_score_bounds apt.price (marketAverage apt.neighborhood apt.bedrooms))
    (calculate_amenity_score_bounds apt req.priorities)

lemma mem_insertDescBy {α : Type} (key : α → ℤ) (a x : α) :
    ∀ l, x ∈ insertDescBy key a l → x = a ∨ x ∈ l := by
  intro l
  induction l with
  | nil =>
    intro h
    simp [insertDescBy] at h
    exact Or.inl h
  | cons b l ih =>
    intro h
    unfold insertDescBy at h
    split_ifs at h
    · rcases List.mem_cons.mp h with rfl | h2
      · exact Or.inr (List.mem_cons_self _ _)
      · rcases ih h2 with rfl | h3
        · exact Or.inl rfl
        · exact Or.inr (List.mem_cons_of_mem _ h3)
    · rcases List.mem_cons.mp h with rfl | h2
      · exact Or.inl rfl
      · exact Or.inr h2

lemma mem_sortDescBy {α : Type} (key : α → ℤ) {x : α} :
    ∀ {l : List α}, x ∈ sortDescBy key l → x ∈ l := by
  intro l
  induction l with
  | nil => intro h; simp [sortDescBy] at h
  | cons b l ih =>
    intro h
    have h2 : x ∈ insertDescBy key b (sortDescBy key l) := h
    rcases mem_insertDescBy key b x _ h2 with rfl | h3
    · exact List.mem_cons_self _ _
    · exact List.mem_cons_of_mem _ (ih h3)

lemma mem_assignRanks (hc : Bool) :
    ∀ (l : List (Recommendation × ScoresDict)) (n : ℕ) {x : Recommendation},
      x ∈ assignRanks hc n l →
      ∃ p ∈ l, ∃ k, x = { p.1 with rank := k, headline := generate_headline k p.2 hc } := by
  intro l
  induction l with
  | nil => intro n x h; simp [assignRanks] at h
  | cons q rest ih =>
    intro n x h
    rcases List.mem_cons.mp h with rfl | h2
    · exact ⟨q, List.mem_cons_self _ _, n, rfl⟩
    · obtain ⟨p, hp, k, hk⟩ := ih (n + 1) h2
      exact ⟨p, List.mem_cons_of_mem _ hp, k, hk⟩

/-- C1: every recommendation returned for a nonempty candidate list carries an
overall score in [0, 100]; its stored commute score (when present),
neighborhood score and budget score are all in [0, 100], as is the amenity
score computed for its apartment. -/
theorem returned_scores_within_range (env : PipelineEnv) (sid t : String)
    (request : SearchRequest) (apartments : List Apartment)
    (hne : apartments ≠ []) :
    ∀ rec ∈ (coordinatorSearch env sid t request apartments).recommendations,
      (0 ≤ rec.overall_score ∧ rec.overall_score ≤ 100)
      ∧ (∀ c, rec.commute.commute_score = some c → 0 ≤ c ∧ c ≤ 100)
      ∧ (0 ≤ rec.neighborhood.neighborhood_score
          ∧ rec.neighborhood.neighborhood_score ≤ 100)
      ∧ (0 ≤ rec.budget.budget_score ∧ rec.budget.budget_score ≤ 100)
      ∧ (0 ≤ calculate_amenity_score rec.apartment request.priorities
          ∧ calculate_amenity_score rec.apartment request.priorities ≤ 100) := by
  intro rec hmem
  unfold coordinatorSearch at hmem
  rw [if_neg (by simpa using hne)] at hmem
  dsimp only at hmem
  have hmem2 := List.mem_of_mem_take hmem
  obtain ⟨p, hp, k, rfl⟩ := mem_assignRanks _ _ _ hmem2
  have hp2 : p ∈ apartments.map (analyzeOne env request request.hasWorkLocation) :=
    mem_sortDescBy _ hp
  rw [List.mem_map] at hp2
  obtain ⟨apt, _, rfl⟩ := hp2
  obtain ⟨hcom, hnb, hbg, hov⟩ :=
    analyzeOne_bounds env request request.hasWorkLocation apt
  exact ⟨hov, hcom, hnb, hbg,
    calculate_amenity_score_bounds
      (analyzeOne env request request.hasWorkLocation apt).1.apartment
      request.priorities⟩

section WitnessEvaluation

/- Kernel evaluation of concrete pipeline runs needs the arithmetic on `ℚ`
to unfold; these core operations are only elaborator-irreducible, so making
them semireducible changes no meaning. -/
set_option allowUnsafeReducibility true
attribute [semireducible] Rat.mul Rat.div Rat.add Rat.sub Rat.neg Rat.inv
  Rat.blt Rat.floor Rat.ceil

def envW : PipelineEnv := ⟨false, fun _ => none, fun _ _ _ _ => 0, []⟩

def reqW : SearchRequest :=
  { budget_min := 1500, budget_max := 2500, work_address := none }

def aptW : Apartment :=
  { id := "w1", title := "Test Apt", address := "1 Main St",
    neighborhood := "Centretown", price := 1800, bedrooms := 1, bathrooms := 1 }

/-- The recommendation the pipeline returns on the witness input. -/
def recW : Recommendation :=
  { rank := 1
    apartment := aptW
    commute := emptyCommute "w1"
    neighborhood :=
      { apartment_id := "w1", neighborhood_name := "Centretown",
        safety_score := 70, safety_rating := "good", walkability_score := 92,
        nightlife_score := 85, quiet_score := 40,
        grocery_nearby := ["Farm Boy", "Loblaws", "Metro"],
        restaurants_nearby := 150, parks_nearby := 5, neighborhood_score := 81,
        summary := "Generally safe, highly walkable" }
    budget :=
      { apartment_id := "w1", monthly_rent := 1800, estimated_utilities := 150,
        total_monthly := 1950, market_average := 1800, price_difference := 0,
        price_difference_percent := 0, price_per_sqft := none,
        is_good_deal := false, budget_score := 70, space_value_score := none,
        summary := "At market rate" }
    overall_score := 68
    headline := "Best Overall Match"
    match_reasons := ["Reasonably priced", "Great location in Centretown"]
    concerns := [] }

/-- Witness for C1 on a one-candidate search without work location. -/
theorem returned_scores_within_range_witness :
    ([aptW] : List Apartment) ≠ []
    ∧ recW ∈ (coordinatorSearch envW "s" "t" reqW [aptW]).recommendations
    ∧ ((0 ≤ recW.overall_score ∧ recW.overall_score ≤ 100)
      ∧ (∀ c, recW.commute.commute_score = some c → 0 ≤ c ∧ c ≤ 100)
      ∧ (0 ≤ recW.neighborhood.neighborhood_score
          ∧ recW.neighborhood.neighborhood_score ≤ 100)
      ∧ (0 ≤ recW.budget.budget_score ∧ recW.budget.budget_score ≤ 100)
      ∧ (0 ≤ calculate_amenity_score recW.apartment reqW.priorities
          ∧ calculate_amenity_score recW.apartment reqW.priorities ≤ 100)) :=
  ⟨by decide, by decide,
    returned_scores_within_range envW "s" "t" reqW [aptW] (by decide) recW (by decide)⟩

end WitnessEvaluation

/-! ## Sorting and ranking lemmas (C3) -/

lemma pairwise_insertDescBy {α : Type} (key : α → ℤ) (a : α) :
    ∀ {l : List α}, l.Pairwise (fun x y => key y ≤ key x) →
      (insertDescBy key a l).Pairwise (fun x y => key y ≤ key x) := by
  intro l
  induction l with
  | nil => intro _; simp [insertDescBy]
  | cons b l ih =>
    intro h
    rw [List.pairwise_cons] at h
    obtain ⟨hb, hl⟩ := h
    unfold insertDescBy
    split_ifs with hab
    · rw [List.pairwise_cons]
      constructor
      · intro x hx
        rcases mem_insertDescBy key a x l hx with rfl | hx2
        · exact hab.le
        · exact hb x hx2
      · exact ih hl
    · rw [List.pairwise_cons]
      constructor
      · intro x hx
        rcases List.mem_cons.mp hx with rfl | hx2
        · exact not_lt.mp hab
        · exact le_trans (hb x hx2) (not_lt.mp hab)
      · exact List.pairwise_cons.mpr ⟨hb, hl⟩

lemma sortDescBy_pairwise {α : Type} (key : α → ℤ) (l : List α) :
    (sortDescBy key l).Pairwise (fun x y => key y ≤ key x) := by
  induction l with
  | nil => simp [sortDescBy]
  | cons a l ih => exact pairwise_insertDescBy key a ih

lemma insertDescBy_length {α : Type} (key : α → ℤ) (a : α) :
    ∀ (l : List α), (insertDescBy key a l).length = l.length + 1 := by
  intro l
  induction l with
  | nil => rfl
  | cons b l ih =>
    unfold insertDescBy
    split_ifs
    · simpa using ih
    · rfl

lemma sortDescBy_length {α : Type} (key : α → ℤ) (l : List α) :
    (sortDescBy key l).length = l.length := by
  induction l with
  | nil => rfl
  | cons a l ih =>
    show (insertDescBy key a (sortDescBy key l)).length = l.length + 1
    rw [insertDescBy_length, ih]

lemma filter_insertDescBy {α : Type} (key : α → ℤ) (s : ℤ) (a : α) :
    ∀ (l : List α),
      (insertDescBy key a l).filter (fun x => key x == s)
        = if key a = s then a :: l.filter (fun x => key x == s)
          else l.filter (fun x => key x == s) := by
  intro l
  induction l with
  | nil =>
    by_cases has : key a = s <;> simp [insertDescBy, has]
  | cons b l ih =>
    unfold insertDescBy
    by_cases hab : key a < key b
    · rw [if_pos hab, List.filter_cons, List.filter_cons, ih]
      by_cases has : key a = s <;> by_cases hbs : key b = s <;>
        (simp [has, hbs]; try omega)
    · rw [if_neg hab, List.filter_cons]
      by_cases has : key a = s <;> simp [has]

lemma sortDescBy_filter {α : Type} (key : α → ℤ) (s : ℤ) (l : List α) :
    (sortDescBy key l).filter (fun x => key x == s)
      = l.filter (fun x => key x == s) := by
  induction l with
  | nil => rfl
  | cons a l ih =>
    show (insertDescBy key a (sortDescBy key l)).filter _ = _
    rw [filter_insertDescBy, List.filter_cons]
    by_cases has : key a = s <;> simp [has, ih]

lemma assignRanks_map_rank (hc : Bool) :
    ∀ (l : List (Recommendation × ScoresDict)) (n : ℕ),
      (assignRanks hc n l).map (fun r => r.rank) = List.range' n l.length := by
  intro l
  induction l with
  | nil => intro n; rfl
  | cons q rest ih =>
    intro n
    show n :: (assignRanks hc (n + 1) rest).map (fun r => r.rank) = _
    rw [ih (n + 1)]
    rfl

lemma assignRanks_map_score (hc : Bool) :
    ∀ (l : List (Recommendation × ScoresDict)) (n : ℕ),
      (assignRanks hc n l).map (fun r => r.overall_score)
        = l.map (fun p => p.1.overall_score) := by
  intro l
  induction l with
  | nil => intro n; rfl
  | cons q rest ih =>
    intro n
    show q.1.overall_score :: (assignRanks hc (n + 1) rest).map _ = _
    rw [ih (n + 1)]
    rfl

lemma take_range' : ∀ (L k n : ℕ), (List.range' n L).take k = List.range' n (min k L) := by
  intro L
  induction L with
  | zero =>
    intro k n
    simp
  | succ L ih =>
    intro k n
    rcases k with _ | k
    · simp
    · show n :: (List.range' (n + 1) L).take k = _
      rw [ih k (n + 1)]
      have : min (k + 1) (L + 1) = min k L + 1 := by omega
      rw [this]
      rfl

lemma assignRanks_pairwise (hc : Bool) :
    ∀ (l : List (Recommendation × ScoresDict)) (n : ℕ),
      l.Pairwise (fun p q => q.1.overall_score ≤ p.1.overall_score) →
      (assignRanks hc n l).Pairwise
        (fun a b => b.overall_score ≤ a.overall_score) := by
  intro l
  induction l with
  | nil => intro n _; exact List.Pairwise.nil
  | cons q rest ih =>
    intro n h
    rw [List.pairwise_cons] at h
    show List.Pairwise _ (_ :: assignRanks hc (n + 1) rest)
    rw [List.pairwise_cons]
    constructor
    · intro x hx
      obtain ⟨p, hp, k, rfl⟩ := mem_assignRanks hc rest (n + 1) hx
      exact h.1 p hp
    · exact ih (n + 1) h.2

/-- C3: the returned recommendations are sorted non-increasingly by
`overall_score`; their `rank` fields are exactly the dense integers
`1..min 10 N` for `N` candidates; and the sort is stable: for every score
value, filtering the sorted scored list yields exactly the filter of the
fetch-order scored list, so equal-score recommendations keep their original
fetch order. -/
theorem ranking_sorted_stable_dense (env : PipelineEnv) (sid t : String)
    (request : SearchRequest) (apartments : List Apartment) :
    ((coordinatorSearch env sid t request apartments).recommendations).Pairwise
      (fun a b => b.overall_score ≤ a.overall_score)
    ∧ ((coordinatorSearch env sid t request apartments).recommendations).map
        (fun r => r.rank) = List.range' 1 (min 10 apartments.length)
    ∧ ∀ s : ℤ,
        (sortDescBy (fun p => p.1.overall_score)
            (apartments.map (analyzeOne env request request.hasWorkLocation))).filter
          (fun p => p.1.overall_score == s)
        = (apartments.map (analyzeOne env request request.hasWorkLocation)).filter
          (fun p => p.1.overall_score == s) := by
  refine ⟨?_, ?_, fun s => sortDescBy_filter _ s _⟩
  · unfold coordinatorSearch
    by_cases h : apartments.isEmpty
    · simp [h]
    · rw [if_neg (by simpa using h)]
      dsimp only
      refine List.Pairwise.sublist (List.take_sublist 10 _) ?_
      exact assignRanks_pairwise request.hasWorkLocation _ 1
        (sortDescBy_pairwise (fun p => p.1.overall_score)
          (apartments.map (analyzeOne env request request.hasWorkLocation)))
  · unfold coordinatorSearch
    by_cases h : apartments.isEmpty
    · rw [List.isEmpty_iff.mp h]
      simp
    · rw [if_neg (by simpa using h)]
      dsimp only
      rw [List.map_take, assignRanks_map_rank, take_range', sortDescBy_length,
        List.length_map]
